import Mathlib

/-!
Verification development for the EasyDict PWA core (dictionary-service.js,
word-root-analyzer.js).  JavaScript strings are modelled as `List Char`;
the helpers below model the string primitives the source uses
(`trim`, `toLowerCase`, `includes`, `startsWith`, `endsWith`, `slice`).
Asynchronous fetches are modelled by passing the settled outcome of each
network call as an explicit argument; `new Date()` timestamps are omitted.
-/

/-- Conversion of a Lean string literal to the `List Char` model of a
JavaScript string. -/
def str (s : String) : List Char := s.toList

/-- Model of `String.prototype.toLowerCase`. -/
def jsToLower (s : List Char) : List Char := s.map Char.toLower

/-- Model of `String.prototype.trim`: strip whitespace at both ends. -/
def jsTrim (s : List Char) : List Char :=
  ((s.dropWhile Char.isWhitespace).reverse.dropWhile Char.isWhitespace).reverse

/-- Model of `haystack.includes(needle)`: does `needle` occur as a contiguous
run inside `haystack`? -/
def listContainsSeq (needle : List Char) : List Char → Bool
  | [] => needle.isPrefixOf ([] : List Char)
  | c :: rest => needle.isPrefixOf (c :: rest) || listContainsSeq needle rest

/-! ## dictionary-service.js : error taxonomy and translation types -/

/-- The `DictionaryError` string constants of dictionary-service.js. -/
inductive ErrorType where
  | WORD_NOT_FOUND
  | NETWORK_ERROR
  | DECODING_ERROR
  | INVALID_URL
deriving DecidableEq

/-- An error object `{ type, message }` thrown by the fetch helpers. -/
structure DictionaryError where
  type : ErrorType
  message : List Char
deriving DecidableEq

/-- One element of the MyMemory `matches` array: `{ translation, quality }`. -/
structure TransMatch where
  translation : List Char
  quality : Int
deriving DecidableEq

/-- The `responseData` object of a MyMemory payload. -/
structure ResponseData where
  translatedText : List Char
deriving DecidableEq

/-- A parsed MyMemory response body; `none` fields model absent JSON fields
(and `matches` being present but not an array); `matches` is a Lean keyword, so the field is named `matchList`. -/
structure MyMemoryResponse where
  responseData : Option ResponseData
  matchList : Option (List TransMatch)
deriving DecidableEq

/-- The `{ primary, alternatives }` object `fetchChineseTranslation` returns. -/
structure Translation where
  primary : List Char
  alternatives : List (List Char)
deriving DecidableEq

/-- The alternative-collection loop of `fetchChineseTranslation`
(dictionary-service.js lines 92-105): walk the matches, keep a `seen` set of
lowercased strings and push at most 5 alternatives. -/
def extractAltsAux : List TransMatch → List (List Char) → List (List Char) →
    List (List Char)
  | [], _seen, alternatives => alternatives
  | m :: rest, seen, alternatives =>
    if m.translation ≠ [] ∧ m.quality ≠ 0 ∧ m.quality > 50 then
      if jsToLower (jsTrim m.translation) ∉ seen ∧
          (jsTrim m.translation).length < 50 then
        if (alternatives ++ [jsTrim m.translation]).length ≥ 5 then
          alternatives ++ [jsTrim m.translation]
        else
          extractAltsAux rest (jsToLower (jsTrim m.translation) :: seen)
            (alternatives ++ [jsTrim m.translation])
      else extractAltsAux rest seen alternatives
    else extractAltsAux rest seen alternatives

/-- Model of `fetchChineseTranslation` from the point where the response body
has been decoded (dictionary-service.js lines 84-111): requires a truthy
`responseData.translatedText`, collects up to 5 filtered alternatives from
`matches`, otherwise fails with a decoding error. -/
def fetchChineseTranslation (resp : MyMemoryResponse) :
    Except DictionaryError Translation :=
  match resp.responseData with
  | some rd =>
    if rd.translatedText ≠ [] then
      let primary := rd.translatedText
      let alternatives :=
        match resp.matchList with
        | some ms => extractAltsAux ms [jsToLower primary] []
        | none => []
      .ok { primary := primary, alternatives := alternatives }
    else .error ⟨.DECODING_ERROR, str "Invalid translation response"⟩
  | none => .error ⟨.DECODING_ERROR, str "Invalid translation response"⟩

/-! ## dictionary-service.js : lookupWord -/

/-- A meaning of a dictionary-API entry (only the field the core reads). -/
structure ApiMeaning where
  partOfSpeech : Option (List Char)
deriving DecidableEq

/-- A dictionary-API entry (only the fields the core reads). -/
structure ApiEntry where
  word : List Char
  meanings : List ApiMeaning
deriving DecidableEq

/-- The combined result object `lookupWord` resolves with (the `timestamp`
field, an impure `new Date()`, is omitted from the model). -/
structure LookupResult where
  word : List Char
  englishDefinitions : List ApiEntry
  chineseTranslation : Translation
  isPhrase : Bool
deriving DecidableEq

/-- Model of `lookupWord` (dictionary-service.js lines 219-249).  The settled
outcomes of the two parallel fetches are passed in: `defResult` for
`fetchEnglishDefinition(trimmedWord)` and `transResult` for
`fetchChineseTranslation(trimmedWord)`.  Every error of the definitions fetch
is caught (`WORD_NOT_FOUND` additionally sets the phrase flag); the awaited
translation outcome is returned as-is, so its errors propagate. -/
def lookupWord (word : List Char)
    (defResult : Except DictionaryError (List ApiEntry))
    (transResult : Except DictionaryError Translation) :
    Except DictionaryError LookupResult :=
  let trimmedWord := jsTrim word
  let defsAndPhrase : List ApiEntry × Bool :=
    match defResult with
    | .ok defs => (defs, false)
    | .error e =>
      ([], if e.type = .WORD_NOT_FOUND then
             listContainsSeq (str " ") trimmedWord ||
               listContainsSeq (str "-") trimmedWord
           else false)
  match transResult with
  | .error e => .error e
  | .ok chineseTranslation =>
    .ok { word := trimmedWord
          englishDefinitions := defsAndPhrase.1
          chineseTranslation := chineseTranslation
          isPhrase := defsAndPhrase.2 || listContainsSeq (str " ") trimmedWord }

/-! ## word-root-analyzer.js : morpheme tables -/

/-- One entry of the curated prefix/root/suffix tables:
`{ pattern, meaning, chinese }`. -/
structure Morpheme where
  pattern : String
  meaning : String
  chinese : String
deriving DecidableEq

/-- Entries 0..49 of the `prefixes` table, in source order. -/
def prefixesPart0 : List Morpheme := [
  Morpheme.mk "un" "not, opposite" "不，相反",
  Morpheme.mk "dis" "not, opposite, apart" "不，相反，分开",
  Morpheme.mk "in" "not, into" "不，进入",
  Morpheme.mk "im" "not, into" "不，进入",
  Morpheme.mk "il" "not" "不",
  Morpheme.mk "ir" "not" "不",
  Morpheme.mk "non" "not" "非，不",
  Morpheme.mk "mis" "wrong, badly" "错误地",
  Morpheme.mk "mal" "bad, wrong" "坏，错误",
  Morpheme.mk "anti" "against, opposite" "反对，抗",
  Morpheme.mk "contra" "against" "反对",
  Morpheme.mk "counter" "against, opposite" "反对，相反",
  Morpheme.mk "ab" "away from" "离开",
  Morpheme.mk "ad" "to, toward" "向，朝",
  Morpheme.mk "circum" "around" "围绕",
  Morpheme.mk "com" "with, together" "共同，一起",
  Morpheme.mk "con" "with, together" "共同，一起",
  Morpheme.mk "col" "with, together" "共同，一起",
  Morpheme.mk "cor" "with, together" "共同，一起",
  Morpheme.mk "co" "with, together" "共同，一起",
  Morpheme.mk "de" "down, away, remove" "向下，去除",
  Morpheme.mk "dia" "through, across" "穿过",
  Morpheme.mk "ex" "out, former" "出，前",
  Morpheme.mk "extra" "beyond, outside" "超出，外",
  Morpheme.mk "infra" "below" "在…下",
  Morpheme.mk "inter" "between, among" "在…之间",
  Morpheme.mk "intra" "within" "在…内",
  Morpheme.mk "intro" "into, inward" "向内",
  Morpheme.mk "ob" "against, toward" "反对，朝向",
  Morpheme.mk "para" "beside, beyond" "旁边，超越",
  Morpheme.mk "per" "through, thorough" "穿过，彻底",
  Morpheme.mk "peri" "around" "围绕",
  Morpheme.mk "post" "after" "在…之后",
  Morpheme.mk "pre" "before" "在…之前",
  Morpheme.mk "pro" "forward, for, before" "向前，支持",
  Morpheme.mk "re" "again, back" "再，重新",
  Morpheme.mk "retro" "backward" "向后",
  Morpheme.mk "se" "apart, away" "分开",
  Morpheme.mk "sub" "under, below" "在…下",
  Morpheme.mk "suc" "under" "在…下",
  Morpheme.mk "suf" "under" "在…下",
  Morpheme.mk "sup" "under" "在…下",
  Morpheme.mk "sus" "under" "在…下",
  Morpheme.mk "super" "above, beyond" "超级，在…上",
  Morpheme.mk "supra" "above" "在…上",
  Morpheme.mk "sur" "over, above" "在…上",
  Morpheme.mk "syn" "together, with" "共同",
  Morpheme.mk "sym" "together, with" "共同",
  Morpheme.mk "trans" "across, beyond" "跨越，穿过",
  Morpheme.mk "ultra" "beyond, extreme" "超越，极端"
]

/-- Entries 50..99 of the `prefixes` table, in source order. -/
def prefixesPart1 : List Morpheme := [
  Morpheme.mk "hyper" "over, excessive" "过度，超",
  Morpheme.mk "hypo" "under, below" "低于，不足",
  Morpheme.mk "macro" "large" "大，宏观",
  Morpheme.mk "mega" "large, million" "大，百万",
  Morpheme.mk "micro" "small" "小，微",
  Morpheme.mk "mini" "small" "小，迷你",
  Morpheme.mk "out" "beyond, more" "超过，在外",
  Morpheme.mk "over" "too much, above" "过度，在…上",
  Morpheme.mk "under" "below, insufficient" "在…下，不足",
  Morpheme.mk "uni" "one" "单一",
  Morpheme.mk "mono" "one, single" "单一",
  Morpheme.mk "bi" "two" "双，二",
  Morpheme.mk "di" "two" "双，二",
  Morpheme.mk "tri" "three" "三",
  Morpheme.mk "quad" "four" "四",
  Morpheme.mk "quart" "four" "四",
  Morpheme.mk "pent" "five" "五",
  Morpheme.mk "quint" "five" "五",
  Morpheme.mk "hex" "six" "六",
  Morpheme.mk "hept" "seven" "七",
  Morpheme.mk "sept" "seven" "七",
  Morpheme.mk "oct" "eight" "八",
  Morpheme.mk "nov" "nine" "九",
  Morpheme.mk "dec" "ten" "十",
  Morpheme.mk "cent" "hundred" "百",
  Morpheme.mk "kilo" "thousand" "千",
  Morpheme.mk "milli" "thousand, thousandth" "千，千分之一",
  Morpheme.mk "semi" "half" "半",
  Morpheme.mk "hemi" "half" "半",
  Morpheme.mk "demi" "half" "半",
  Morpheme.mk "multi" "many" "多",
  Morpheme.mk "poly" "many" "多",
  Morpheme.mk "auto" "self" "自动，自己",
  Morpheme.mk "bene" "good, well" "好",
  Morpheme.mk "bio" "life" "生命",
  Morpheme.mk "chrono" "time" "时间",
  Morpheme.mk "cyber" "computer" "网络，计算机",
  Morpheme.mk "eco" "environment" "生态，环境",
  Morpheme.mk "electro" "electric" "电",
  Morpheme.mk "geo" "earth" "地球",
  Morpheme.mk "hetero" "different" "不同",
  Morpheme.mk "homo" "same" "相同",
  Morpheme.mk "hydro" "water" "水",
  Morpheme.mk "neo" "new" "新",
  Morpheme.mk "neuro" "nerve" "神经",
  Morpheme.mk "pan" "all" "全，泛",
  Morpheme.mk "phil" "love" "爱",
  Morpheme.mk "philo" "love" "爱",
  Morpheme.mk "photo" "light" "光",
  Morpheme.mk "pseudo" "false" "假，伪"
]

/-- Entries 100..110 of the `prefixes` table, in source order. -/
def prefixesPart2 : List Morpheme := [
  Morpheme.mk "psycho" "mind" "心理",
  Morpheme.mk "socio" "society" "社会",
  Morpheme.mk "techno" "technology" "技术",
  Morpheme.mk "tele" "far, distant" "远",
  Morpheme.mk "thermo" "heat" "热",
  Morpheme.mk "vice" "deputy" "副",
  Morpheme.mk "ante" "before" "在…之前",
  Morpheme.mk "fore" "before, front" "在…前",
  Morpheme.mk "mid" "middle" "中间",
  Morpheme.mk "eu" "good, well" "好",
  Morpheme.mk "dys" "bad, difficult" "坏，困难"
]

/-- The `prefixes` table of word-root-analyzer.js (111 entries, split into chunks above only to keep elaboration fast; concatenation preserves source order). -/
def prefixes : List Morpheme :=
  prefixesPart0 ++ prefixesPart1 ++ prefixesPart2

/-- Entries 0..49 of the `roots` table, in source order. -/
def rootsPart0 : List Morpheme := [
  Morpheme.mk "act" "do, drive" "做，驱动",
  Morpheme.mk "ag" "do, act" "做，行动",
  Morpheme.mk "agr" "field, farm" "田地，农业",
  Morpheme.mk "ali" "other" "其他",
  Morpheme.mk "alter" "other, change" "其他，改变",
  Morpheme.mk "am" "love" "爱",
  Morpheme.mk "anim" "life, spirit" "生命，精神",
  Morpheme.mk "ann" "year" "年",
  Morpheme.mk "enn" "year" "年",
  Morpheme.mk "anth" "flower" "花",
  Morpheme.mk "anthrop" "human" "人类",
  Morpheme.mk "apt" "fit" "适合",
  Morpheme.mk "aqu" "water" "水",
  Morpheme.mk "arch" "chief, rule" "首领，统治",
  Morpheme.mk "art" "skill" "技艺",
  Morpheme.mk "aster" "star" "星",
  Morpheme.mk "astr" "star" "星",
  Morpheme.mk "aud" "hear" "听",
  Morpheme.mk "aug" "increase" "增加",
  Morpheme.mk "bar" "weight, pressure" "重量，压力",
  Morpheme.mk "bas" "low, base" "低，基础",
  Morpheme.mk "bell" "war" "战争",
  Morpheme.mk "bibl" "book" "书",
  Morpheme.mk "bio" "life" "生命",
  Morpheme.mk "brev" "short" "短",
  Morpheme.mk "cad" "fall" "落下",
  Morpheme.mk "cas" "fall" "落下",
  Morpheme.mk "cid" "fall" "落下",
  Morpheme.mk "cap" "head" "头",
  Morpheme.mk "capit" "head" "头",
  Morpheme.mk "capt" "take, seize" "拿，抓",
  Morpheme.mk "cept" "take, seize" "拿，抓",
  Morpheme.mk "ceiv" "take, seize" "拿，抓",
  Morpheme.mk "cip" "take, seize" "拿，抓",
  Morpheme.mk "carn" "flesh" "肉",
  Morpheme.mk "ced" "go, yield" "走，让步",
  Morpheme.mk "ceed" "go, yield" "走，让步",
  Morpheme.mk "cess" "go, yield" "走，让步",
  Morpheme.mk "centr" "center" "中心",
  Morpheme.mk "cert" "sure" "确定",
  Morpheme.mk "chron" "time" "时间",
  Morpheme.mk "cide" "kill, cut" "杀，切",
  Morpheme.mk "cis" "cut" "切",
  Morpheme.mk "cit" "call, arouse" "叫，唤起",
  Morpheme.mk "civ" "citizen" "公民",
  Morpheme.mk "claim" "cry out" "喊叫",
  Morpheme.mk "clam" "cry out" "喊叫",
  Morpheme.mk "clar" "clear" "清楚",
  Morpheme.mk "clin" "lean, bend" "倾斜",
  Morpheme.mk "clos" "close" "关闭"
]

/-- Entries 50..99 of the `roots` table, in source order. -/
def rootsPart1 : List Morpheme := [
  Morpheme.mk "clud" "close" "关闭",
  Morpheme.mk "clus" "close" "关闭",
  Morpheme.mk "cogn" "know" "知道",
  Morpheme.mk "cord" "heart" "心",
  Morpheme.mk "corp" "body" "身体",
  Morpheme.mk "cosm" "universe, order" "宇宙，秩序",
  Morpheme.mk "crat" "rule, power" "统治，权力",
  Morpheme.mk "cre" "create, grow" "创造，生长",
  Morpheme.mk "creat" "create" "创造",
  Morpheme.mk "cred" "believe, trust" "相信，信任",
  Morpheme.mk "cresc" "grow" "生长",
  Morpheme.mk "crit" "judge" "判断",
  Morpheme.mk "crypt" "hidden" "隐藏",
  Morpheme.mk "cult" "care, grow" "培养，种植",
  Morpheme.mk "cur" "care" "关心",
  Morpheme.mk "cure" "care" "关心",
  Morpheme.mk "curs" "run" "跑",
  Morpheme.mk "curr" "run" "跑",
  Morpheme.mk "cours" "run" "跑",
  Morpheme.mk "cycl" "circle" "圆，循环",
  Morpheme.mk "dec" "ten" "十",
  Morpheme.mk "dem" "people" "人民",
  Morpheme.mk "dent" "tooth" "牙齿",
  Morpheme.mk "derm" "skin" "皮肤",
  Morpheme.mk "dic" "say, speak" "说",
  Morpheme.mk "dict" "say, speak" "说",
  Morpheme.mk "dign" "worthy" "值得",
  Morpheme.mk "doc" "teach" "教",
  Morpheme.mk "doct" "teach" "教",
  Morpheme.mk "dom" "house, control" "房屋，控制",
  Morpheme.mk "don" "give" "给",
  Morpheme.mk "donat" "give" "给",
  Morpheme.mk "dorm" "sleep" "睡",
  Morpheme.mk "dox" "opinion, belief" "观点，信仰",
  Morpheme.mk "draw" "pull" "拉",
  Morpheme.mk "du" "two" "二",
  Morpheme.mk "duc" "lead" "引导",
  Morpheme.mk "duct" "lead" "引导",
  Morpheme.mk "dur" "hard, lasting" "硬，持久",
  Morpheme.mk "dyn" "power" "力量",
  Morpheme.mk "dynam" "power" "力量",
  Morpheme.mk "equ" "equal" "相等",
  Morpheme.mk "erg" "work" "工作",
  Morpheme.mk "err" "wander, mistake" "漫游，错误",
  Morpheme.mk "ev" "age, time" "时代",
  Morpheme.mk "fab" "speak" "说",
  Morpheme.mk "fac" "make, do" "做，制造",
  Morpheme.mk "fact" "make, do" "做，制造",
  Morpheme.mk "fect" "make, do" "做，制造",
  Morpheme.mk "fic" "make, do" "做，制造"
]

/-- Entries 100..149 of the `roots` table, in source order. -/
def rootsPart2 : List Morpheme := [
  Morpheme.mk "fall" "deceive" "欺骗",
  Morpheme.mk "fals" "deceive" "欺骗",
  Morpheme.mk "fam" "fame, report" "名声",
  Morpheme.mk "fer" "carry, bring" "带，携带",
  Morpheme.mk "fid" "faith, trust" "信任",
  Morpheme.mk "fig" "shape, form" "形状",
  Morpheme.mk "fin" "end, limit" "结束，限制",
  Morpheme.mk "firm" "strong" "坚固",
  Morpheme.mk "fix" "fasten" "固定",
  Morpheme.mk "flam" "burn" "燃烧",
  Morpheme.mk "flect" "bend" "弯曲",
  Morpheme.mk "flex" "bend" "弯曲",
  Morpheme.mk "flict" "strike" "打击",
  Morpheme.mk "flor" "flower" "花",
  Morpheme.mk "flu" "flow" "流",
  Morpheme.mk "flux" "flow" "流",
  Morpheme.mk "form" "shape" "形状",
  Morpheme.mk "fort" "strong" "强壮",
  Morpheme.mk "forc" "strong" "强壮",
  Morpheme.mk "frag" "break" "打破",
  Morpheme.mk "fract" "break" "打破",
  Morpheme.mk "fug" "flee" "逃",
  Morpheme.mk "funct" "perform" "执行",
  Morpheme.mk "fund" "base, bottom" "基础，底部",
  Morpheme.mk "fus" "pour, melt" "倾倒，融化",
  Morpheme.mk "gam" "marriage" "婚姻",
  Morpheme.mk "gen" "birth, produce" "出生，产生",
  Morpheme.mk "ger" "carry" "携带",
  Morpheme.mk "gest" "carry" "携带",
  Morpheme.mk "gnos" "know" "知道",
  Morpheme.mk "grad" "step, degree" "步，程度",
  Morpheme.mk "gress" "step, go" "步，走",
  Morpheme.mk "gram" "write, letter" "写，字母",
  Morpheme.mk "graph" "write" "写",
  Morpheme.mk "grat" "pleasing" "令人愉快",
  Morpheme.mk "grav" "heavy" "重",
  Morpheme.mk "greg" "flock, group" "群",
  Morpheme.mk "gyn" "woman" "女人",
  Morpheme.mk "hab" "have, hold" "有，持有",
  Morpheme.mk "habit" "have, live" "有，居住",
  Morpheme.mk "hap" "luck, chance" "运气",
  Morpheme.mk "heli" "sun" "太阳",
  Morpheme.mk "hem" "blood" "血",
  Morpheme.mk "her" "heir" "继承人",
  Morpheme.mk "hes" "stick" "粘",
  Morpheme.mk "hibit" "hold, have" "持有",
  Morpheme.mk "hom" "man, human" "人",
  Morpheme.mk "hor" "hour" "小时",
  Morpheme.mk "hum" "earth, ground" "土地",
  Morpheme.mk "human" "human" "人类"
]

/-- Entries 150..199 of the `roots` table, in source order. -/
def rootsPart3 : List Morpheme := [
  Morpheme.mk "ident" "same" "相同",
  Morpheme.mk "ign" "fire" "火",
  Morpheme.mk "imag" "likeness" "相似",
  Morpheme.mk "init" "begin" "开始",
  Morpheme.mk "integr" "whole" "完整",
  Morpheme.mk "it" "go" "走",
  Morpheme.mk "ject" "throw" "投，扔",
  Morpheme.mk "join" "join" "连接",
  Morpheme.mk "junct" "join" "连接",
  Morpheme.mk "jud" "judge" "判断",
  Morpheme.mk "judic" "judge" "判断",
  Morpheme.mk "jur" "swear, law" "发誓，法律",
  Morpheme.mk "jus" "law, right" "法律，权利",
  Morpheme.mk "just" "law, right" "法律，正义",
  Morpheme.mk "juven" "young" "年轻",
  Morpheme.mk "labor" "work" "工作",
  Morpheme.mk "lat" "carry, bear" "携带",
  Morpheme.mk "later" "side" "侧面",
  Morpheme.mk "lav" "wash" "洗",
  Morpheme.mk "lect" "choose, read" "选择，读",
  Morpheme.mk "leg" "law, read" "法律，读",
  Morpheme.mk "lev" "light, rise" "轻，升起",
  Morpheme.mk "liber" "free" "自由",
  Morpheme.mk "libr" "book" "书",
  Morpheme.mk "lic" "permit" "允许",
  Morpheme.mk "lig" "bind" "绑",
  Morpheme.mk "lim" "limit" "限制",
  Morpheme.mk "lin" "line" "线",
  Morpheme.mk "lingu" "language, tongue" "语言，舌头",
  Morpheme.mk "lit" "letter" "文字",
  Morpheme.mk "liter" "letter" "文字",
  Morpheme.mk "loc" "place" "地方",
  Morpheme.mk "log" "word, study, reason" "词，学科，理性",
  Morpheme.mk "loqu" "speak" "说",
  Morpheme.mk "luc" "light" "光",
  Morpheme.mk "lud" "play" "玩",
  Morpheme.mk "lus" "play" "玩",
  Morpheme.mk "lum" "light" "光",
  Morpheme.mk "lumin" "light" "光",
  Morpheme.mk "magn" "great" "大",
  Morpheme.mk "maj" "greater" "更大",
  Morpheme.mk "man" "hand" "手",
  Morpheme.mk "manu" "hand" "手",
  Morpheme.mk "mand" "order" "命令",
  Morpheme.mk "mar" "sea" "海",
  Morpheme.mk "mater" "mother" "母亲",
  Morpheme.mk "matr" "mother" "母亲",
  Morpheme.mk "medi" "middle" "中间",
  Morpheme.mk "med" "heal" "治愈",
  Morpheme.mk "mem" "remember" "记忆"
]

/-- Entries 200..249 of the `roots` table, in source order. -/
def rootsPart4 : List Morpheme := [
  Morpheme.mk "memor" "remember" "记忆",
  Morpheme.mk "ment" "mind" "思想",
  Morpheme.mk "merc" "trade" "贸易",
  Morpheme.mk "merg" "dip, plunge" "浸入",
  Morpheme.mk "mers" "dip, plunge" "浸入",
  Morpheme.mk "meter" "measure" "测量",
  Morpheme.mk "metr" "measure" "测量",
  Morpheme.mk "migr" "move" "迁移",
  Morpheme.mk "min" "small, less" "小，少",
  Morpheme.mk "mir" "wonder" "惊奇",
  Morpheme.mk "mis" "send" "发送",
  Morpheme.mk "miss" "send" "发送",
  Morpheme.mk "mit" "send" "发送",
  Morpheme.mk "mob" "move" "移动",
  Morpheme.mk "mod" "manner, measure" "方式，测量",
  Morpheme.mk "mon" "warn, remind" "警告，提醒",
  Morpheme.mk "monstr" "show" "显示",
  Morpheme.mk "mor" "custom, manner" "习俗，方式",
  Morpheme.mk "morph" "form, shape" "形状",
  Morpheme.mk "mort" "death" "死亡",
  Morpheme.mk "mot" "move" "移动",
  Morpheme.mk "mov" "move" "移动",
  Morpheme.mk "mun" "service, gift" "服务，礼物",
  Morpheme.mk "mut" "change" "改变",
  Morpheme.mk "nasc" "born" "出生",
  Morpheme.mk "nat" "born" "出生",
  Morpheme.mk "nav" "ship" "船",
  Morpheme.mk "nect" "bind" "绑",
  Morpheme.mk "neg" "deny" "否认",
  Morpheme.mk "neur" "nerve" "神经",
  Morpheme.mk "noc" "harm" "伤害",
  Morpheme.mk "nox" "harm" "伤害",
  Morpheme.mk "nom" "name, law" "名字，法则",
  Morpheme.mk "nomin" "name" "名字",
  Morpheme.mk "norm" "rule" "规则",
  Morpheme.mk "not" "know, mark" "知道，标记",
  Morpheme.mk "noun" "declare" "宣布",
  Morpheme.mk "nounce" "declare" "宣布",
  Morpheme.mk "nov" "new" "新",
  Morpheme.mk "numer" "number" "数字",
  Morpheme.mk "nutr" "nourish" "滋养",
  Morpheme.mk "oct" "eight" "八",
  Morpheme.mk "ocul" "eye" "眼睛",
  Morpheme.mk "oper" "work" "工作",
  Morpheme.mk "opt" "best, choose" "最好，选择",
  Morpheme.mk "ora" "speak, pray" "说，祈祷",
  Morpheme.mk "ord" "order" "顺序",
  Morpheme.mk "organ" "tool, organ" "工具，器官",
  Morpheme.mk "ori" "rise" "升起",
  Morpheme.mk "orn" "decorate" "装饰"
]

/-- Entries 250..299 of the `roots` table, in source order. -/
def rootsPart5 : List Morpheme := [
  Morpheme.mk "pac" "peace" "和平",
  Morpheme.mk "par" "equal" "相等",
  Morpheme.mk "part" "part" "部分",
  Morpheme.mk "pass" "feel, suffer" "感受，遭受",
  Morpheme.mk "path" "feeling, disease" "感情，疾病",
  Morpheme.mk "patr" "father" "父亲",
  Morpheme.mk "pater" "father" "父亲",
  Morpheme.mk "ped" "foot, child" "脚，儿童",
  Morpheme.mk "pel" "drive, push" "驱动，推",
  Morpheme.mk "puls" "drive, push" "驱动，推",
  Morpheme.mk "pen" "punish" "惩罚",
  Morpheme.mk "pend" "hang, weigh" "悬挂，称重",
  Morpheme.mk "pens" "hang, weigh" "悬挂，称重",
  Morpheme.mk "pet" "seek" "寻求",
  Morpheme.mk "phas" "show" "显示",
  Morpheme.mk "phen" "show" "显示",
  Morpheme.mk "phil" "love" "爱",
  Morpheme.mk "phob" "fear" "恐惧",
  Morpheme.mk "phon" "sound" "声音",
  Morpheme.mk "phor" "carry" "携带",
  Morpheme.mk "photo" "light" "光",
  Morpheme.mk "phys" "nature, body" "自然，身体",
  Morpheme.mk "plac" "please" "取悦",
  Morpheme.mk "plan" "flat" "平的",
  Morpheme.mk "plas" "form, mold" "形成，塑造",
  Morpheme.mk "ple" "fill" "填充",
  Morpheme.mk "plen" "full" "满",
  Morpheme.mk "plex" "fold" "折叠",
  Morpheme.mk "plic" "fold" "折叠",
  Morpheme.mk "ply" "fold" "折叠",
  Morpheme.mk "pod" "foot" "脚",
  Morpheme.mk "poli" "city, citizen" "城市，公民",
  Morpheme.mk "polit" "citizen" "公民",
  Morpheme.mk "pon" "place, put" "放置",
  Morpheme.mk "pos" "place, put" "放置",
  Morpheme.mk "posit" "place, put" "放置",
  Morpheme.mk "pot" "power" "力量",
  Morpheme.mk "poten" "power" "力量",
  Morpheme.mk "prec" "price" "价格",
  Morpheme.mk "press" "press" "压",
  Morpheme.mk "prim" "first" "第一",
  Morpheme.mk "prin" "first" "第一",
  Morpheme.mk "priv" "separate" "分开",
  Morpheme.mk "prob" "prove, test" "证明，测试",
  Morpheme.mk "prov" "prove, test" "证明，测试",
  Morpheme.mk "proto" "first" "第一",
  Morpheme.mk "psych" "mind, soul" "心理，灵魂",
  Morpheme.mk "punct" "point" "点",
  Morpheme.mk "pur" "pure" "纯净",
  Morpheme.mk "put" "think" "思考"
]

/-- Entries 300..349 of the `roots` table, in source order. -/
def rootsPart6 : List Morpheme := [
  Morpheme.mk "quer" "ask, seek" "问，寻求",
  Morpheme.mk "quest" "ask, seek" "问，寻求",
  Morpheme.mk "quir" "ask, seek" "问，寻求",
  Morpheme.mk "quiet" "rest" "安静",
  Morpheme.mk "radi" "ray, spoke" "光线，辐射",
  Morpheme.mk "rat" "think, reason" "思考，理性",
  Morpheme.mk "real" "thing" "事物",
  Morpheme.mk "rect" "right, straight" "正确，直",
  Morpheme.mk "reg" "rule, king" "统治，王",
  Morpheme.mk "rog" "ask" "问",
  Morpheme.mk "rupt" "break" "打破",
  Morpheme.mk "sacr" "holy" "神圣",
  Morpheme.mk "sanct" "holy" "神圣",
  Morpheme.mk "san" "health" "健康",
  Morpheme.mk "sat" "enough" "足够",
  Morpheme.mk "sci" "know" "知道",
  Morpheme.mk "scop" "see, watch" "看，观察",
  Morpheme.mk "scrib" "write" "写",
  Morpheme.mk "script" "write" "写",
  Morpheme.mk "sec" "cut" "切",
  Morpheme.mk "sect" "cut" "切",
  Morpheme.mk "secu" "follow" "跟随",
  Morpheme.mk "sequ" "follow" "跟随",
  Morpheme.mk "sed" "sit, settle" "坐，安顿",
  Morpheme.mk "sess" "sit" "坐",
  Morpheme.mk "sid" "sit" "坐",
  Morpheme.mk "sen" "old" "老",
  Morpheme.mk "sens" "feel" "感觉",
  Morpheme.mk "sent" "feel" "感觉",
  Morpheme.mk "sert" "join" "连接",
  Morpheme.mk "serv" "serve, keep" "服务，保持",
  Morpheme.mk "sign" "mark" "标记",
  Morpheme.mk "simil" "like" "相似",
  Morpheme.mk "simul" "like" "相似",
  Morpheme.mk "sist" "stand" "站立",
  Morpheme.mk "soci" "companion" "同伴",
  Morpheme.mk "sol" "alone, sun" "单独，太阳",
  Morpheme.mk "solv" "loosen" "解开",
  Morpheme.mk "solut" "loosen" "解开",
  Morpheme.mk "somn" "sleep" "睡眠",
  Morpheme.mk "son" "sound" "声音",
  Morpheme.mk "soph" "wise" "智慧",
  Morpheme.mk "spec" "look, see" "看",
  Morpheme.mk "spect" "look, see" "看",
  Morpheme.mk "spir" "breathe" "呼吸",
  Morpheme.mk "spond" "promise" "承诺",
  Morpheme.mk "spons" "promise" "承诺",
  Morpheme.mk "sta" "stand" "站立",
  Morpheme.mk "stat" "stand" "站立",
  Morpheme.mk "strain" "draw tight" "拉紧"
]

/-- Entries 350..399 of the `roots` table, in source order. -/
def rootsPart7 : List Morpheme := [
  Morpheme.mk "strict" "draw tight" "拉紧",
  Morpheme.mk "struct" "build" "建造",
  Morpheme.mk "stud" "eager" "热心",
  Morpheme.mk "sum" "take, highest" "拿，最高",
  Morpheme.mk "tac" "silent" "沉默",
  Morpheme.mk "tact" "touch" "触摸",
  Morpheme.mk "tag" "touch" "触摸",
  Morpheme.mk "tang" "touch" "触摸",
  Morpheme.mk "tain" "hold" "保持",
  Morpheme.mk "ten" "hold" "保持",
  Morpheme.mk "tin" "hold" "保持",
  Morpheme.mk "techn" "skill" "技术",
  Morpheme.mk "tect" "cover" "覆盖",
  Morpheme.mk "tele" "far" "远",
  Morpheme.mk "tempor" "time" "时间",
  Morpheme.mk "tend" "stretch" "伸展",
  Morpheme.mk "tens" "stretch" "伸展",
  Morpheme.mk "tent" "stretch" "伸展",
  Morpheme.mk "term" "end, limit" "结束，限制",
  Morpheme.mk "termin" "end, limit" "结束，限制",
  Morpheme.mk "terr" "earth, land" "地，土地",
  Morpheme.mk "test" "witness" "见证",
  Morpheme.mk "text" "weave" "编织",
  Morpheme.mk "the" "god" "神",
  Morpheme.mk "theo" "god" "神",
  Morpheme.mk "therm" "heat" "热",
  Morpheme.mk "thes" "put, place" "放置",
  Morpheme.mk "tom" "cut" "切",
  Morpheme.mk "ton" "tone, sound" "音调，声音",
  Morpheme.mk "tor" "twist" "扭",
  Morpheme.mk "tort" "twist" "扭",
  Morpheme.mk "tox" "poison" "毒",
  Morpheme.mk "tract" "pull, drag" "拉，拖",
  Morpheme.mk "trib" "give" "给",
  Morpheme.mk "trud" "push" "推",
  Morpheme.mk "trus" "push" "推",
  Morpheme.mk "turb" "disturb" "扰乱",
  Morpheme.mk "typ" "type" "类型",
  Morpheme.mk "ultim" "last" "最后",
  Morpheme.mk "umbr" "shadow" "阴影",
  Morpheme.mk "un" "one" "一",
  Morpheme.mk "und" "wave" "波浪",
  Morpheme.mk "uni" "one" "一",
  Morpheme.mk "urb" "city" "城市",
  Morpheme.mk "us" "use" "使用",
  Morpheme.mk "ut" "use" "使用",
  Morpheme.mk "util" "use" "使用",
  Morpheme.mk "vac" "empty" "空",
  Morpheme.mk "vad" "go" "走",
  Morpheme.mk "val" "strong, worth" "强壮，价值"
]

/-- Entries 400..427 of the `roots` table, in source order. -/
def rootsPart8 : List Morpheme := [
  Morpheme.mk "valu" "worth" "价值",
  Morpheme.mk "var" "change" "改变",
  Morpheme.mk "vari" "change" "改变",
  Morpheme.mk "ven" "come" "来",
  Morpheme.mk "vent" "come" "来",
  Morpheme.mk "ver" "true" "真实",
  Morpheme.mk "verb" "word" "词",
  Morpheme.mk "verg" "turn" "转",
  Morpheme.mk "vers" "turn" "转",
  Morpheme.mk "vert" "turn" "转",
  Morpheme.mk "vest" "clothe" "穿衣",
  Morpheme.mk "vi" "way" "道路",
  Morpheme.mk "via" "way" "道路",
  Morpheme.mk "vid" "see" "看",
  Morpheme.mk "vis" "see" "看",
  Morpheme.mk "view" "see" "看",
  Morpheme.mk "vict" "conquer" "征服",
  Morpheme.mk "vinc" "conquer" "征服",
  Morpheme.mk "vir" "man" "男人",
  Morpheme.mk "vit" "life" "生命",
  Morpheme.mk "viv" "live" "活",
  Morpheme.mk "voc" "voice, call" "声音，叫",
  Morpheme.mk "vok" "call" "叫",
  Morpheme.mk "vol" "will, wish" "意愿",
  Morpheme.mk "volv" "roll" "滚动",
  Morpheme.mk "vor" "eat" "吃",
  Morpheme.mk "vot" "vow" "发誓",
  Morpheme.mk "zo" "animal" "动物"
]

/-- The `roots` table of word-root-analyzer.js (428 entries, split into chunks above only to keep elaboration fast; concatenation preserves source order). -/
def roots : List Morpheme :=
  rootsPart0 ++ rootsPart1 ++ rootsPart2 ++ rootsPart3 ++ rootsPart4 ++ rootsPart5 ++ rootsPart6 ++ rootsPart7 ++ rootsPart8

/-- Entries 0..49 of the `suffixes` table, in source order. -/
def suffixesPart0 : List Morpheme := [
  Morpheme.mk "er" "one who" "…的人",
  Morpheme.mk "or" "one who" "…的人",
  Morpheme.mk "ar" "one who" "…的人",
  Morpheme.mk "ist" "one who practices" "…者",
  Morpheme.mk "ian" "one who" "…人",
  Morpheme.mk "ant" "one who" "…的人",
  Morpheme.mk "ent" "one who" "…的人",
  Morpheme.mk "ee" "one who receives" "被…的人",
  Morpheme.mk "eer" "one who" "…者",
  Morpheme.mk "ess" "female" "女性",
  Morpheme.mk "ster" "one who" "…者",
  Morpheme.mk "tion" "act, state" "…行为，状态",
  Morpheme.mk "sion" "act, state" "…行为，状态",
  Morpheme.mk "ation" "act, process" "…行为",
  Morpheme.mk "ition" "act, state" "…行为，状态",
  Morpheme.mk "ment" "act, state" "…行为",
  Morpheme.mk "ness" "state, quality" "…状态",
  Morpheme.mk "ity" "state, quality" "…性",
  Morpheme.mk "ty" "state, quality" "…性",
  Morpheme.mk "ance" "state, quality" "…状态",
  Morpheme.mk "ence" "state, quality" "…状态",
  Morpheme.mk "ancy" "state, quality" "…状态",
  Morpheme.mk "ency" "state, quality" "…状态",
  Morpheme.mk "dom" "state, realm" "…状态，领域",
  Morpheme.mk "hood" "state, condition" "…状态",
  Morpheme.mk "ship" "state, skill" "…状态，技能",
  Morpheme.mk "ism" "belief, practice" "…主义",
  Morpheme.mk "ure" "act, process" "…行为",
  Morpheme.mk "age" "action, result" "…行为，结果",
  Morpheme.mk "ery" "place, practice" "…场所",
  Morpheme.mk "ry" "place, practice" "…场所",
  Morpheme.mk "cy" "state, quality" "…状态",
  Morpheme.mk "th" "state" "…状态",
  Morpheme.mk "able" "capable of" "能够…的",
  Morpheme.mk "ible" "capable of" "能够…的",
  Morpheme.mk "al" "relating to" "…的",
  Morpheme.mk "ial" "relating to" "…的",
  Morpheme.mk "ical" "relating to" "…的",
  Morpheme.mk "ful" "full of" "充满…的",
  Morpheme.mk "less" "without" "没有…的",
  Morpheme.mk "ous" "full of" "…的",
  Morpheme.mk "ious" "full of" "…的",
  Morpheme.mk "eous" "full of" "…的",
  Morpheme.mk "ive" "tending to" "…的",
  Morpheme.mk "ative" "tending to" "…的",
  Morpheme.mk "itive" "tending to" "…的",
  Morpheme.mk "ic" "relating to" "…的",
  Morpheme.mk "tic" "relating to" "…的",
  Morpheme.mk "ary" "relating to" "…的",
  Morpheme.mk "ory" "relating to" "…的"
]

/-- Entries 50..84 of the `suffixes` table, in source order. -/
def suffixesPart1 : List Morpheme := [
  Morpheme.mk "ish" "like, somewhat" "像…的",
  Morpheme.mk "like" "similar to" "像…的",
  Morpheme.mk "ly" "like, having quality" "…的",
  Morpheme.mk "y" "having quality" "…的",
  Morpheme.mk "ed" "having" "有…的",
  Morpheme.mk "en" "made of" "由…制成",
  Morpheme.mk "ern" "direction" "…方向的",
  Morpheme.mk "ese" "nationality" "…国的",
  Morpheme.mk "ward" "direction" "向…",
  Morpheme.mk "wards" "direction" "向…",
  Morpheme.mk "wise" "manner" "…方式",
  Morpheme.mk "ize" "make, become" "使…化",
  Morpheme.mk "ise" "make, become" "使…化",
  Morpheme.mk "fy" "make" "使…",
  Morpheme.mk "ify" "make" "使…",
  Morpheme.mk "ate" "make, act" "使…，做",
  Morpheme.mk "ly" "in manner of" "…地",
  Morpheme.mk "ing" "action, process" "…中",
  Morpheme.mk "ling" "small, young" "小…",
  Morpheme.mk "let" "small" "小…",
  Morpheme.mk "ette" "small" "小…",
  Morpheme.mk "oid" "like" "像…的",
  Morpheme.mk "scope" "instrument for seeing" "…镜",
  Morpheme.mk "graphy" "writing, study" "…学，…术",
  Morpheme.mk "logy" "study of" "…学",
  Morpheme.mk "nomy" "law, knowledge" "…学",
  Morpheme.mk "metry" "measurement" "…测量",
  Morpheme.mk "phobia" "fear" "恐…症",
  Morpheme.mk "cracy" "rule by" "…统治",
  Morpheme.mk "crat" "ruler" "…统治者",
  Morpheme.mk "arch" "ruler" "统治者",
  Morpheme.mk "archy" "rule" "统治",
  Morpheme.mk "cide" "killing" "杀",
  Morpheme.mk "path" "feeling, disease" "…病",
  Morpheme.mk "pathy" "feeling" "…感"
]

/-- The `suffixes` table of word-root-analyzer.js (85 entries, split into chunks above only to keep elaboration fast; concatenation preserves source order). -/
def suffixes : List Morpheme :=
  suffixesPart0 ++ suffixesPart1

/-- The character-list view of a morpheme's pattern string. -/
def pat (m : Morpheme) : List Char := m.pattern.toList

/-- Stable insertion into a list already sorted by descending pattern
length: `x` goes after every element whose pattern is at least as long. -/
def insertByLen (x : Morpheme) : List Morpheme → List Morpheme
  | [] => [x]
  | h :: t => if x.pattern.length ≤ h.pattern.length then h :: insertByLen x t
              else x :: h :: t

/-- Stable sort by descending pattern length (the unique stable-sort result,
hence the output of the JavaScript engine's stable `Array.prototype.sort`
with comparator `(a, b) => b.pattern.length - a.pattern.length`). -/
def sortByLenDesc (l : List Morpheme) : List Morpheme :=
  l.foldl (fun acc x => insertByLen x acc) []

/-- Chunk 0 of `sortedPrefixes`. -/
def sortedPrefixesPart0 : List Morpheme := [
  Morpheme.mk "counter" "against, opposite" "反对，相反",
  Morpheme.mk "electro" "electric" "电",
  Morpheme.mk "contra" "against" "反对",
  Morpheme.mk "circum" "around" "围绕",
  Morpheme.mk "chrono" "time" "时间",
  Morpheme.mk "hetero" "different" "不同",
  Morpheme.mk "pseudo" "false" "假，伪",
  Morpheme.mk "psycho" "mind" "心理",
  Morpheme.mk "techno" "technology" "技术",
  Morpheme.mk "thermo" "heat" "热",
  Morpheme.mk "extra" "beyond, outside" "超出，外",
  Morpheme.mk "infra" "below" "在…下",
  Morpheme.mk "inter" "between, among" "在…之间",
  Morpheme.mk "intra" "within" "在…内",
  Morpheme.mk "intro" "into, inward" "向内",
  Morpheme.mk "retro" "backward" "向后",
  Morpheme.mk "super" "above, beyond" "超级，在…上",
  Morpheme.mk "supra" "above" "在…上",
  Morpheme.mk "trans" "across, beyond" "跨越，穿过",
  Morpheme.mk "ultra" "beyond, extreme" "超越，极端",
  Morpheme.mk "hyper" "over, excessive" "过度，超",
  Morpheme.mk "macro" "large" "大，宏观",
  Morpheme.mk "micro" "small" "小，微",
  Morpheme.mk "under" "below, insufficient" "在…下，不足",
  Morpheme.mk "quart" "four" "四",
  Morpheme.mk "quint" "five" "五",
  Morpheme.mk "milli" "thousand, thousandth" "千，千分之一",
  Morpheme.mk "multi" "many" "多",
  Morpheme.mk "cyber" "computer" "网络，计算机",
  Morpheme.mk "hydro" "water" "水",
  Morpheme.mk "neuro" "nerve" "神经",
  Morpheme.mk "philo" "love" "爱",
  Morpheme.mk "photo" "light" "光",
  Morpheme.mk "socio" "society" "社会",
  Morpheme.mk "anti" "against, opposite" "反对，抗",
  Morpheme.mk "para" "beside, beyond" "旁边，超越",
  Morpheme.mk "peri" "around" "围绕",
  Morpheme.mk "post" "after" "在…之后",
  Morpheme.mk "hypo" "under, below" "低于，不足",
  Morpheme.mk "mega" "large, million" "大，百万",
  Morpheme.mk "mini" "small" "小，迷你",
  Morpheme.mk "over" "too much, above" "过度，在…上",
  Morpheme.mk "mono" "one, single" "单一",
  Morpheme.mk "quad" "four" "四",
  Morpheme.mk "pent" "five" "五",
  Morpheme.mk "hept" "seven" "七",
  Morpheme.mk "sept" "seven" "七",
  Morpheme.mk "cent" "hundred" "百",
  Morpheme.mk "kilo" "thousand" "千",
  Morpheme.mk "semi" "half" "半"
]

/-- Chunk 1 of `sortedPrefixes`. -/
def sortedPrefixesPart1 : List Morpheme := [
  Morpheme.mk "hemi" "half" "半",
  Morpheme.mk "demi" "half" "半",
  Morpheme.mk "poly" "many" "多",
  Morpheme.mk "auto" "self" "自动，自己",
  Morpheme.mk "bene" "good, well" "好",
  Morpheme.mk "homo" "same" "相同",
  Morpheme.mk "phil" "love" "爱",
  Morpheme.mk "tele" "far, distant" "远",
  Morpheme.mk "vice" "deputy" "副",
  Morpheme.mk "ante" "before" "在…之前",
  Morpheme.mk "fore" "before, front" "在…前",
  Morpheme.mk "dis" "not, opposite, apart" "不，相反，分开",
  Morpheme.mk "non" "not" "非，不",
  Morpheme.mk "mis" "wrong, badly" "错误地",
  Morpheme.mk "mal" "bad, wrong" "坏，错误",
  Morpheme.mk "com" "with, together" "共同，一起",
  Morpheme.mk "con" "with, together" "共同，一起",
  Morpheme.mk "col" "with, together" "共同，一起",
  Morpheme.mk "cor" "with, together" "共同，一起",
  Morpheme.mk "dia" "through, across" "穿过",
  Morpheme.mk "per" "through, thorough" "穿过，彻底",
  Morpheme.mk "pre" "before" "在…之前",
  Morpheme.mk "pro" "forward, for, before" "向前，支持",
  Morpheme.mk "sub" "under, below" "在…下",
  Morpheme.mk "suc" "under" "在…下",
  Morpheme.mk "suf" "under" "在…下",
  Morpheme.mk "sup" "under" "在…下",
  Morpheme.mk "sus" "under" "在…下",
  Morpheme.mk "sur" "over, above" "在…上",
  Morpheme.mk "syn" "together, with" "共同",
  Morpheme.mk "sym" "together, with" "共同",
  Morpheme.mk "out" "beyond, more" "超过，在外",
  Morpheme.mk "uni" "one" "单一",
  Morpheme.mk "tri" "three" "三",
  Morpheme.mk "hex" "six" "六",
  Morpheme.mk "oct" "eight" "八",
  Morpheme.mk "nov" "nine" "九",
  Morpheme.mk "dec" "ten" "十",
  Morpheme.mk "bio" "life" "生命",
  Morpheme.mk "eco" "environment" "生态，环境",
  Morpheme.mk "geo" "earth" "地球",
  Morpheme.mk "neo" "new" "新",
  Morpheme.mk "pan" "all" "全，泛",
  Morpheme.mk "mid" "middle" "中间",
  Morpheme.mk "dys" "bad, difficult" "坏，困难",
  Morpheme.mk "un" "not, opposite" "不，相反",
  Morpheme.mk "in" "not, into" "不，进入",
  Morpheme.mk "im" "not, into" "不，进入",
  Morpheme.mk "il" "not" "不",
  Morpheme.mk "ir" "not" "不"
]

/-- Chunk 2 of `sortedPrefixes`. -/
def sortedPrefixesPart2 : List Morpheme := [
  Morpheme.mk "ab" "away from" "离开",
  Morpheme.mk "ad" "to, toward" "向，朝",
  Morpheme.mk "co" "with, together" "共同，一起",
  Morpheme.mk "de" "down, away, remove" "向下，去除",
  Morpheme.mk "ex" "out, former" "出，前",
  Morpheme.mk "ob" "against, toward" "反对，朝向",
  Morpheme.mk "re" "again, back" "再，重新",
  Morpheme.mk "se" "apart, away" "分开",
  Morpheme.mk "bi" "two" "双，二",
  Morpheme.mk "di" "two" "双，二",
  Morpheme.mk "eu" "good, well" "好"
]

/-- The `prefixes` table sorted by descending pattern length with the stable sort
`[...prefixes].sort((a, b) => b.pattern.length - a.pattern.length)`; written out
literally (in chunks, concatenated in order) so that proofs can evaluate it,
and certified against `sortByLenDesc prefixes` below. -/
def sortedPrefixes : List Morpheme :=
  sortedPrefixesPart0 ++ sortedPrefixesPart1 ++ sortedPrefixesPart2

/-- Chunk 0 of `sortedRoots`. -/
def sortedRootsPart0 : List Morpheme := [
  Morpheme.mk "anthrop" "human" "人类",
  Morpheme.mk "integr" "whole" "完整",
  Morpheme.mk "monstr" "show" "显示",
  Morpheme.mk "nounce" "declare" "宣布",
  Morpheme.mk "script" "write" "写",
  Morpheme.mk "strain" "draw tight" "拉紧",
  Morpheme.mk "strict" "draw tight" "拉紧",
  Morpheme.mk "struct" "build" "建造",
  Morpheme.mk "tempor" "time" "时间",
  Morpheme.mk "termin" "end, limit" "结束，限制",
  Morpheme.mk "alter" "other, change" "其他，改变",
  Morpheme.mk "aster" "star" "星",
  Morpheme.mk "capit" "head" "头",
  Morpheme.mk "centr" "center" "中心",
  Morpheme.mk "chron" "time" "时间",
  Morpheme.mk "claim" "cry out" "喊叫",
  Morpheme.mk "creat" "create" "创造",
  Morpheme.mk "cresc" "grow" "生长",
  Morpheme.mk "crypt" "hidden" "隐藏",
  Morpheme.mk "cours" "run" "跑",
  Morpheme.mk "donat" "give" "给",
  Morpheme.mk "dynam" "power" "力量",
  Morpheme.mk "flect" "bend" "弯曲",
  Morpheme.mk "flict" "strike" "打击",
  Morpheme.mk "fract" "break" "打破",
  Morpheme.mk "funct" "perform" "执行",
  Morpheme.mk "gress" "step, go" "步，走",
  Morpheme.mk "graph" "write" "写",
  Morpheme.mk "habit" "have, live" "有，居住",
  Morpheme.mk "hibit" "hold, have" "持有",
  Morpheme.mk "human" "human" "人类",
  Morpheme.mk "ident" "same" "相同",
  Morpheme.mk "junct" "join" "连接",
  Morpheme.mk "judic" "judge" "判断",
  Morpheme.mk "juven" "young" "年轻",
  Morpheme.mk "labor" "work" "工作",
  Morpheme.mk "later" "side" "侧面",
  Morpheme.mk "liber" "free" "自由",
  Morpheme.mk "lingu" "language, tongue" "语言，舌头",
  Morpheme.mk "liter" "letter" "文字",
  Morpheme.mk "lumin" "light" "光",
  Morpheme.mk "mater" "mother" "母亲",
  Morpheme.mk "memor" "remember" "记忆",
  Morpheme.mk "meter" "measure" "测量",
  Morpheme.mk "morph" "form, shape" "形状",
  Morpheme.mk "nomin" "name" "名字",
  Morpheme.mk "numer" "number" "数字",
  Morpheme.mk "organ" "tool, organ" "工具，器官",
  Morpheme.mk "pater" "father" "父亲",
  Morpheme.mk "photo" "light" "光"
]

/-- Chunk 1 of `sortedRoots`. -/
def sortedRootsPart1 : List Morpheme := [
  Morpheme.mk "polit" "citizen" "公民",
  Morpheme.mk "posit" "place, put" "放置",
  Morpheme.mk "poten" "power" "力量",
  Morpheme.mk "press" "press" "压",
  Morpheme.mk "proto" "first" "第一",
  Morpheme.mk "psych" "mind, soul" "心理，灵魂",
  Morpheme.mk "punct" "point" "点",
  Morpheme.mk "quest" "ask, seek" "问，寻求",
  Morpheme.mk "quiet" "rest" "安静",
  Morpheme.mk "sanct" "holy" "神圣",
  Morpheme.mk "scrib" "write" "写",
  Morpheme.mk "simil" "like" "相似",
  Morpheme.mk "simul" "like" "相似",
  Morpheme.mk "solut" "loosen" "解开",
  Morpheme.mk "spect" "look, see" "看",
  Morpheme.mk "spond" "promise" "承诺",
  Morpheme.mk "spons" "promise" "承诺",
  Morpheme.mk "techn" "skill" "技术",
  Morpheme.mk "therm" "heat" "热",
  Morpheme.mk "tract" "pull, drag" "拉，拖",
  Morpheme.mk "ultim" "last" "最后",
  Morpheme.mk "anim" "life, spirit" "生命，精神",
  Morpheme.mk "anth" "flower" "花",
  Morpheme.mk "arch" "chief, rule" "首领，统治",
  Morpheme.mk "astr" "star" "星",
  Morpheme.mk "bell" "war" "战争",
  Morpheme.mk "bibl" "book" "书",
  Morpheme.mk "brev" "short" "短",
  Morpheme.mk "capt" "take, seize" "拿，抓",
  Morpheme.mk "cept" "take, seize" "拿，抓",
  Morpheme.mk "ceiv" "take, seize" "拿，抓",
  Morpheme.mk "carn" "flesh" "肉",
  Morpheme.mk "ceed" "go, yield" "走，让步",
  Morpheme.mk "cess" "go, yield" "走，让步",
  Morpheme.mk "cert" "sure" "确定",
  Morpheme.mk "cide" "kill, cut" "杀，切",
  Morpheme.mk "clam" "cry out" "喊叫",
  Morpheme.mk "clar" "clear" "清楚",
  Morpheme.mk "clin" "lean, bend" "倾斜",
  Morpheme.mk "clos" "close" "关闭",
  Morpheme.mk "clud" "close" "关闭",
  Morpheme.mk "clus" "close" "关闭",
  Morpheme.mk "cogn" "know" "知道",
  Morpheme.mk "cord" "heart" "心",
  Morpheme.mk "corp" "body" "身体",
  Morpheme.mk "cosm" "universe, order" "宇宙，秩序",
  Morpheme.mk "crat" "rule, power" "统治，权力",
  Morpheme.mk "cred" "believe, trust" "相信，信任",
  Morpheme.mk "crit" "judge" "判断",
  Morpheme.mk "cult" "care, grow" "培养，种植"
]

/-- Chunk 2 of `sortedRoots`. -/
def sortedRootsPart2 : List Morpheme := [
  Morpheme.mk "cure" "care" "关心",
  Morpheme.mk "curs" "run" "跑",
  Morpheme.mk "curr" "run" "跑",
  Morpheme.mk "cycl" "circle" "圆，循环",
  Morpheme.mk "dent" "tooth" "牙齿",
  Morpheme.mk "derm" "skin" "皮肤",
  Morpheme.mk "dict" "say, speak" "说",
  Morpheme.mk "dign" "worthy" "值得",
  Morpheme.mk "doct" "teach" "教",
  Morpheme.mk "dorm" "sleep" "睡",
  Morpheme.mk "draw" "pull" "拉",
  Morpheme.mk "duct" "lead" "引导",
  Morpheme.mk "fact" "make, do" "做，制造",
  Morpheme.mk "fect" "make, do" "做，制造",
  Morpheme.mk "fall" "deceive" "欺骗",
  Morpheme.mk "fals" "deceive" "欺骗",
  Morpheme.mk "firm" "strong" "坚固",
  Morpheme.mk "flam" "burn" "燃烧",
  Morpheme.mk "flex" "bend" "弯曲",
  Morpheme.mk "flor" "flower" "花",
  Morpheme.mk "flux" "flow" "流",
  Morpheme.mk "form" "shape" "形状",
  Morpheme.mk "fort" "strong" "强壮",
  Morpheme.mk "forc" "strong" "强壮",
  Morpheme.mk "frag" "break" "打破",
  Morpheme.mk "fund" "base, bottom" "基础，底部",
  Morpheme.mk "gest" "carry" "携带",
  Morpheme.mk "gnos" "know" "知道",
  Morpheme.mk "grad" "step, degree" "步，程度",
  Morpheme.mk "gram" "write, letter" "写，字母",
  Morpheme.mk "grat" "pleasing" "令人愉快",
  Morpheme.mk "grav" "heavy" "重",
  Morpheme.mk "greg" "flock, group" "群",
  Morpheme.mk "heli" "sun" "太阳",
  Morpheme.mk "imag" "likeness" "相似",
  Morpheme.mk "init" "begin" "开始",
  Morpheme.mk "ject" "throw" "投，扔",
  Morpheme.mk "join" "join" "连接",
  Morpheme.mk "just" "law, right" "法律，正义",
  Morpheme.mk "lect" "choose, read" "选择，读",
  Morpheme.mk "libr" "book" "书",
  Morpheme.mk "loqu" "speak" "说",
  Morpheme.mk "magn" "great" "大",
  Morpheme.mk "manu" "hand" "手",
  Morpheme.mk "mand" "order" "命令",
  Morpheme.mk "matr" "mother" "母亲",
  Morpheme.mk "medi" "middle" "中间",
  Morpheme.mk "ment" "mind" "思想",
  Morpheme.mk "merc" "trade" "贸易",
  Morpheme.mk "merg" "dip, plunge" "浸入"
]

/-- Chunk 3 of `sortedRoots`. -/
def sortedRootsPart3 : List Morpheme := [
  Morpheme.mk "mers" "dip, plunge" "浸入",
  Morpheme.mk "metr" "measure" "测量",
  Morpheme.mk "migr" "move" "迁移",
  Morpheme.mk "miss" "send" "发送",
  Morpheme.mk "mort" "death" "死亡",
  Morpheme.mk "nasc" "born" "出生",
  Morpheme.mk "nect" "bind" "绑",
  Morpheme.mk "neur" "nerve" "神经",
  Morpheme.mk "norm" "rule" "规则",
  Morpheme.mk "noun" "declare" "宣布",
  Morpheme.mk "nutr" "nourish" "滋养",
  Morpheme.mk "ocul" "eye" "眼睛",
  Morpheme.mk "oper" "work" "工作",
  Morpheme.mk "part" "part" "部分",
  Morpheme.mk "pass" "feel, suffer" "感受，遭受",
  Morpheme.mk "path" "feeling, disease" "感情，疾病",
  Morpheme.mk "patr" "father" "父亲",
  Morpheme.mk "puls" "drive, push" "驱动，推",
  Morpheme.mk "pend" "hang, weigh" "悬挂，称重",
  Morpheme.mk "pens" "hang, weigh" "悬挂，称重",
  Morpheme.mk "phas" "show" "显示",
  Morpheme.mk "phen" "show" "显示",
  Morpheme.mk "phil" "love" "爱",
  Morpheme.mk "phob" "fear" "恐惧",
  Morpheme.mk "phon" "sound" "声音",
  Morpheme.mk "phor" "carry" "携带",
  Morpheme.mk "phys" "nature, body" "自然，身体",
  Morpheme.mk "plac" "please" "取悦",
  Morpheme.mk "plan" "flat" "平的",
  Morpheme.mk "plas" "form, mold" "形成，塑造",
  Morpheme.mk "plen" "full" "满",
  Morpheme.mk "plex" "fold" "折叠",
  Morpheme.mk "plic" "fold" "折叠",
  Morpheme.mk "poli" "city, citizen" "城市，公民",
  Morpheme.mk "prec" "price" "价格",
  Morpheme.mk "prim" "first" "第一",
  Morpheme.mk "prin" "first" "第一",
  Morpheme.mk "priv" "separate" "分开",
  Morpheme.mk "prob" "prove, test" "证明，测试",
  Morpheme.mk "prov" "prove, test" "证明，测试",
  Morpheme.mk "quer" "ask, seek" "问，寻求",
  Morpheme.mk "quir" "ask, seek" "问，寻求",
  Morpheme.mk "radi" "ray, spoke" "光线，辐射",
  Morpheme.mk "real" "thing" "事物",
  Morpheme.mk "rect" "right, straight" "正确，直",
  Morpheme.mk "rupt" "break" "打破",
  Morpheme.mk "sacr" "holy" "神圣",
  Morpheme.mk "scop" "see, watch" "看，观察",
  Morpheme.mk "sect" "cut" "切",
  Morpheme.mk "secu" "follow" "跟随"
]

/-- Chunk 4 of `sortedRoots`. -/
def sortedRootsPart4 : List Morpheme := [
  Morpheme.mk "sequ" "follow" "跟随",
  Morpheme.mk "sess" "sit" "坐",
  Morpheme.mk "sens" "feel" "感觉",
  Morpheme.mk "sent" "feel" "感觉",
  Morpheme.mk "sert" "join" "连接",
  Morpheme.mk "serv" "serve, keep" "服务，保持",
  Morpheme.mk "sign" "mark" "标记",
  Morpheme.mk "sist" "stand" "站立",
  Morpheme.mk "soci" "companion" "同伴",
  Morpheme.mk "solv" "loosen" "解开",
  Morpheme.mk "somn" "sleep" "睡眠",
  Morpheme.mk "soph" "wise" "智慧",
  Morpheme.mk "spec" "look, see" "看",
  Morpheme.mk "spir" "breathe" "呼吸",
  Morpheme.mk "stat" "stand" "站立",
  Morpheme.mk "stud" "eager" "热心",
  Morpheme.mk "tact" "touch" "触摸",
  Morpheme.mk "tang" "touch" "触摸",
  Morpheme.mk "tain" "hold" "保持",
  Morpheme.mk "tect" "cover" "覆盖",
  Morpheme.mk "tele" "far" "远",
  Morpheme.mk "tend" "stretch" "伸展",
  Morpheme.mk "tens" "stretch" "伸展",
  Morpheme.mk "tent" "stretch" "伸展",
  Morpheme.mk "term" "end, limit" "结束，限制",
  Morpheme.mk "terr" "earth, land" "地，土地",
  Morpheme.mk "test" "witness" "见证",
  Morpheme.mk "text" "weave" "编织",
  Morpheme.mk "theo" "god" "神",
  Morpheme.mk "thes" "put, place" "放置",
  Morpheme.mk "tort" "twist" "扭",
  Morpheme.mk "trib" "give" "给",
  Morpheme.mk "trud" "push" "推",
  Morpheme.mk "trus" "push" "推",
  Morpheme.mk "turb" "disturb" "扰乱",
  Morpheme.mk "umbr" "shadow" "阴影",
  Morpheme.mk "util" "use" "使用",
  Morpheme.mk "valu" "worth" "价值",
  Morpheme.mk "vari" "change" "改变",
  Morpheme.mk "vent" "come" "来",
  Morpheme.mk "verb" "word" "词",
  Morpheme.mk "verg" "turn" "转",
  Morpheme.mk "vers" "turn" "转",
  Morpheme.mk "vert" "turn" "转",
  Morpheme.mk "vest" "clothe" "穿衣",
  Morpheme.mk "view" "see" "看",
  Morpheme.mk "vict" "conquer" "征服",
  Morpheme.mk "vinc" "conquer" "征服",
  Morpheme.mk "volv" "roll" "滚动",
  Morpheme.mk "act" "do, drive" "做，驱动"
]

/-- Chunk 5 of `sortedRoots`. -/
def sortedRootsPart5 : List Morpheme := [
  Morpheme.mk "agr" "field, farm" "田地，农业",
  Morpheme.mk "ali" "other" "其他",
  Morpheme.mk "ann" "year" "年",
  Morpheme.mk "enn" "year" "年",
  Morpheme.mk "apt" "fit" "适合",
  Morpheme.mk "aqu" "water" "水",
  Morpheme.mk "art" "skill" "技艺",
  Morpheme.mk "aud" "hear" "听",
  Morpheme.mk "aug" "increase" "增加",
  Morpheme.mk "bar" "weight, pressure" "重量，压力",
  Morpheme.mk "bas" "low, base" "低，基础",
  Morpheme.mk "bio" "life" "生命",
  Morpheme.mk "cad" "fall" "落下",
  Morpheme.mk "cas" "fall" "落下",
  Morpheme.mk "cid" "fall" "落下",
  Morpheme.mk "cap" "head" "头",
  Morpheme.mk "cip" "take, seize" "拿，抓",
  Morpheme.mk "ced" "go, yield" "走，让步",
  Morpheme.mk "cis" "cut" "切",
  Morpheme.mk "cit" "call, arouse" "叫，唤起",
  Morpheme.mk "civ" "citizen" "公民",
  Morpheme.mk "cre" "create, grow" "创造，生长",
  Morpheme.mk "cur" "care" "关心",
  Morpheme.mk "dec" "ten" "十",
  Morpheme.mk "dem" "people" "人民",
  Morpheme.mk "dic" "say, speak" "说",
  Morpheme.mk "doc" "teach" "教",
  Morpheme.mk "dom" "house, control" "房屋，控制",
  Morpheme.mk "don" "give" "给",
  Morpheme.mk "dox" "opinion, belief" "观点，信仰",
  Morpheme.mk "duc" "lead" "引导",
  Morpheme.mk "dur" "hard, lasting" "硬，持久",
  Morpheme.mk "dyn" "power" "力量",
  Morpheme.mk "equ" "equal" "相等",
  Morpheme.mk "erg" "work" "工作",
  Morpheme.mk "err" "wander, mistake" "漫游，错误",
  Morpheme.mk "fab" "speak" "说",
  Morpheme.mk "fac" "make, do" "做，制造",
  Morpheme.mk "fic" "make, do" "做，制造",
  Morpheme.mk "fam" "fame, report" "名声",
  Morpheme.mk "fer" "carry, bring" "带，携带",
  Morpheme.mk "fid" "faith, trust" "信任",
  Morpheme.mk "fig" "shape, form" "形状",
  Morpheme.mk "fin" "end, limit" "结束，限制",
  Morpheme.mk "fix" "fasten" "固定",
  Morpheme.mk "flu" "flow" "流",
  Morpheme.mk "fug" "flee" "逃",
  Morpheme.mk "fus" "pour, melt" "倾倒，融化",
  Morpheme.mk "gam" "marriage" "婚姻",
  Morpheme.mk "gen" "birth, produce" "出生，产生"
]

/-- Chunk 6 of `sortedRoots`. -/
def sortedRootsPart6 : List Morpheme := [
  Morpheme.mk "ger" "carry" "携带",
  Morpheme.mk "gyn" "woman" "女人",
  Morpheme.mk "hab" "have, hold" "有，持有",
  Morpheme.mk "hap" "luck, chance" "运气",
  Morpheme.mk "hem" "blood" "血",
  Morpheme.mk "her" "heir" "继承人",
  Morpheme.mk "hes" "stick" "粘",
  Morpheme.mk "hom" "man, human" "人",
  Morpheme.mk "hor" "hour" "小时",
  Morpheme.mk "hum" "earth, ground" "土地",
  Morpheme.mk "ign" "fire" "火",
  Morpheme.mk "jud" "judge" "判断",
  Morpheme.mk "jur" "swear, law" "发誓，法律",
  Morpheme.mk "jus" "law, right" "法律，权利",
  Morpheme.mk "lat" "carry, bear" "携带",
  Morpheme.mk "lav" "wash" "洗",
  Morpheme.mk "leg" "law, read" "法律，读",
  Morpheme.mk "lev" "light, rise" "轻，升起",
  Morpheme.mk "lic" "permit" "允许",
  Morpheme.mk "lig" "bind" "绑",
  Morpheme.mk "lim" "limit" "限制",
  Morpheme.mk "lin" "line" "线",
  Morpheme.mk "lit" "letter" "文字",
  Morpheme.mk "loc" "place" "地方",
  Morpheme.mk "log" "word, study, reason" "词，学科，理性",
  Morpheme.mk "luc" "light" "光",
  Morpheme.mk "lud" "play" "玩",
  Morpheme.mk "lus" "play" "玩",
  Morpheme.mk "lum" "light" "光",
  Morpheme.mk "maj" "greater" "更大",
  Morpheme.mk "man" "hand" "手",
  Morpheme.mk "mar" "sea" "海",
  Morpheme.mk "med" "heal" "治愈",
  Morpheme.mk "mem" "remember" "记忆",
  Morpheme.mk "min" "small, less" "小，少",
  Morpheme.mk "mir" "wonder" "惊奇",
  Morpheme.mk "mis" "send" "发送",
  Morpheme.mk "mit" "send" "发送",
  Morpheme.mk "mob" "move" "移动",
  Morpheme.mk "mod" "manner, measure" "方式，测量",
  Morpheme.mk "mon" "warn, remind" "警告，提醒",
  Morpheme.mk "mor" "custom, manner" "习俗，方式",
  Morpheme.mk "mot" "move" "移动",
  Morpheme.mk "mov" "move" "移动",
  Morpheme.mk "mun" "service, gift" "服务，礼物",
  Morpheme.mk "mut" "change" "改变",
  Morpheme.mk "nat" "born" "出生",
  Morpheme.mk "nav" "ship" "船",
  Morpheme.mk "neg" "deny" "否认",
  Morpheme.mk "noc" "harm" "伤害"
]

/-- Chunk 7 of `sortedRoots`. -/
def sortedRootsPart7 : List Morpheme := [
  Morpheme.mk "nox" "harm" "伤害",
  Morpheme.mk "nom" "name, law" "名字，法则",
  Morpheme.mk "not" "know, mark" "知道，标记",
  Morpheme.mk "nov" "new" "新",
  Morpheme.mk "oct" "eight" "八",
  Morpheme.mk "opt" "best, choose" "最好，选择",
  Morpheme.mk "ora" "speak, pray" "说，祈祷",
  Morpheme.mk "ord" "order" "顺序",
  Morpheme.mk "ori" "rise" "升起",
  Morpheme.mk "orn" "decorate" "装饰",
  Morpheme.mk "pac" "peace" "和平",
  Morpheme.mk "par" "equal" "相等",
  Morpheme.mk "ped" "foot, child" "脚，儿童",
  Morpheme.mk "pel" "drive, push" "驱动，推",
  Morpheme.mk "pen" "punish" "惩罚",
  Morpheme.mk "pet" "seek" "寻求",
  Morpheme.mk "ple" "fill" "填充",
  Morpheme.mk "ply" "fold" "折叠",
  Morpheme.mk "pod" "foot" "脚",
  Morpheme.mk "pon" "place, put" "放置",
  Morpheme.mk "pos" "place, put" "放置",
  Morpheme.mk "pot" "power" "力量",
  Morpheme.mk "pur" "pure" "纯净",
  Morpheme.mk "put" "think" "思考",
  Morpheme.mk "rat" "think, reason" "思考，理性",
  Morpheme.mk "reg" "rule, king" "统治，王",
  Morpheme.mk "rog" "ask" "问",
  Morpheme.mk "san" "health" "健康",
  Morpheme.mk "sat" "enough" "足够",
  Morpheme.mk "sci" "know" "知道",
  Morpheme.mk "sec" "cut" "切",
  Morpheme.mk "sed" "sit, settle" "坐，安顿",
  Morpheme.mk "sid" "sit" "坐",
  Morpheme.mk "sen" "old" "老",
  Morpheme.mk "sol" "alone, sun" "单独，太阳",
  Morpheme.mk "son" "sound" "声音",
  Morpheme.mk "sta" "stand" "站立",
  Morpheme.mk "sum" "take, highest" "拿，最高",
  Morpheme.mk "tac" "silent" "沉默",
  Morpheme.mk "tag" "touch" "触摸",
  Morpheme.mk "ten" "hold" "保持",
  Morpheme.mk "tin" "hold" "保持",
  Morpheme.mk "the" "god" "神",
  Morpheme.mk "tom" "cut" "切",
  Morpheme.mk "ton" "tone, sound" "音调，声音",
  Morpheme.mk "tor" "twist" "扭",
  Morpheme.mk "tox" "poison" "毒",
  Morpheme.mk "typ" "type" "类型",
  Morpheme.mk "und" "wave" "波浪",
  Morpheme.mk "uni" "one" "一"
]

/-- Chunk 8 of `sortedRoots`. -/
def sortedRootsPart8 : List Morpheme := [
  Morpheme.mk "urb" "city" "城市",
  Morpheme.mk "vac" "empty" "空",
  Morpheme.mk "vad" "go" "走",
  Morpheme.mk "val" "strong, worth" "强壮，价值",
  Morpheme.mk "var" "change" "改变",
  Morpheme.mk "ven" "come" "来",
  Morpheme.mk "ver" "true" "真实",
  Morpheme.mk "via" "way" "道路",
  Morpheme.mk "vid" "see" "看",
  Morpheme.mk "vis" "see" "看",
  Morpheme.mk "vir" "man" "男人",
  Morpheme.mk "vit" "life" "生命",
  Morpheme.mk "viv" "live" "活",
  Morpheme.mk "voc" "voice, call" "声音，叫",
  Morpheme.mk "vok" "call" "叫",
  Morpheme.mk "vol" "will, wish" "意愿",
  Morpheme.mk "vor" "eat" "吃",
  Morpheme.mk "vot" "vow" "发誓",
  Morpheme.mk "ag" "do, act" "做，行动",
  Morpheme.mk "am" "love" "爱",
  Morpheme.mk "du" "two" "二",
  Morpheme.mk "ev" "age, time" "时代",
  Morpheme.mk "it" "go" "走",
  Morpheme.mk "un" "one" "一",
  Morpheme.mk "us" "use" "使用",
  Morpheme.mk "ut" "use" "使用",
  Morpheme.mk "vi" "way" "道路",
  Morpheme.mk "zo" "animal" "动物"
]

/-- The `roots` table sorted by descending pattern length with the stable sort
`[...roots].sort((a, b) => b.pattern.length - a.pattern.length)`; written out
literally (in chunks, concatenated in order) so that proofs can evaluate it,
and certified against `sortByLenDesc roots` below. -/
def sortedRoots : List Morpheme :=
  sortedRootsPart0 ++ sortedRootsPart1 ++ sortedRootsPart2 ++ sortedRootsPart3 ++ sortedRootsPart4 ++ sortedRootsPart5 ++ sortedRootsPart6 ++ sortedRootsPart7 ++ sortedRootsPart8

/-- Chunk 0 of `sortedSuffixes`. -/
def sortedSuffixesPart0 : List Morpheme := [
  Morpheme.mk "graphy" "writing, study" "…学，…术",
  Morpheme.mk "phobia" "fear" "恐…症",
  Morpheme.mk "ation" "act, process" "…行为",
  Morpheme.mk "ition" "act, state" "…行为，状态",
  Morpheme.mk "ative" "tending to" "…的",
  Morpheme.mk "itive" "tending to" "…的",
  Morpheme.mk "wards" "direction" "向…",
  Morpheme.mk "scope" "instrument for seeing" "…镜",
  Morpheme.mk "metry" "measurement" "…测量",
  Morpheme.mk "cracy" "rule by" "…统治",
  Morpheme.mk "archy" "rule" "统治",
  Morpheme.mk "pathy" "feeling" "…感",
  Morpheme.mk "ster" "one who" "…者",
  Morpheme.mk "tion" "act, state" "…行为，状态",
  Morpheme.mk "sion" "act, state" "…行为，状态",
  Morpheme.mk "ment" "act, state" "…行为",
  Morpheme.mk "ness" "state, quality" "…状态",
  Morpheme.mk "ance" "state, quality" "…状态",
  Morpheme.mk "ence" "state, quality" "…状态",
  Morpheme.mk "ancy" "state, quality" "…状态",
  Morpheme.mk "ency" "state, quality" "…状态",
  Morpheme.mk "hood" "state, condition" "…状态",
  Morpheme.mk "ship" "state, skill" "…状态，技能",
  Morpheme.mk "able" "capable of" "能够…的",
  Morpheme.mk "ible" "capable of" "能够…的",
  Morpheme.mk "ical" "relating to" "…的",
  Morpheme.mk "less" "without" "没有…的",
  Morpheme.mk "ious" "full of" "…的",
  Morpheme.mk "eous" "full of" "…的",
  Morpheme.mk "like" "similar to" "像…的",
  Morpheme.mk "ward" "direction" "向…",
  Morpheme.mk "wise" "manner" "…方式",
  Morpheme.mk "ling" "small, young" "小…",
  Morpheme.mk "ette" "small" "小…",
  Morpheme.mk "logy" "study of" "…学",
  Morpheme.mk "nomy" "law, knowledge" "…学",
  Morpheme.mk "crat" "ruler" "…统治者",
  Morpheme.mk "arch" "ruler" "统治者",
  Morpheme.mk "cide" "killing" "杀",
  Morpheme.mk "path" "feeling, disease" "…病",
  Morpheme.mk "ist" "one who practices" "…者",
  Morpheme.mk "ian" "one who" "…人",
  Morpheme.mk "ant" "one who" "…的人",
  Morpheme.mk "ent" "one who" "…的人",
  Morpheme.mk "eer" "one who" "…者",
  Morpheme.mk "ess" "female" "女性",
  Morpheme.mk "ity" "state, quality" "…性",
  Morpheme.mk "dom" "state, realm" "…状态，领域",
  Morpheme.mk "ism" "belief, practice" "…主义",
  Morpheme.mk "ure" "act, process" "…行为"
]

/-- Chunk 1 of `sortedSuffixes`. -/
def sortedSuffixesPart1 : List Morpheme := [
  Morpheme.mk "age" "action, result" "…行为，结果",
  Morpheme.mk "ery" "place, practice" "…场所",
  Morpheme.mk "ial" "relating to" "…的",
  Morpheme.mk "ful" "full of" "充满…的",
  Morpheme.mk "ous" "full of" "…的",
  Morpheme.mk "ive" "tending to" "…的",
  Morpheme.mk "tic" "relating to" "…的",
  Morpheme.mk "ary" "relating to" "…的",
  Morpheme.mk "ory" "relating to" "…的",
  Morpheme.mk "ish" "like, somewhat" "像…的",
  Morpheme.mk "ern" "direction" "…方向的",
  Morpheme.mk "ese" "nationality" "…国的",
  Morpheme.mk "ize" "make, become" "使…化",
  Morpheme.mk "ise" "make, become" "使…化",
  Morpheme.mk "ify" "make" "使…",
  Morpheme.mk "ate" "make, act" "使…，做",
  Morpheme.mk "ing" "action, process" "…中",
  Morpheme.mk "let" "small" "小…",
  Morpheme.mk "oid" "like" "像…的",
  Morpheme.mk "er" "one who" "…的人",
  Morpheme.mk "or" "one who" "…的人",
  Morpheme.mk "ar" "one who" "…的人",
  Morpheme.mk "ee" "one who receives" "被…的人",
  Morpheme.mk "ty" "state, quality" "…性",
  Morpheme.mk "ry" "place, practice" "…场所",
  Morpheme.mk "cy" "state, quality" "…状态",
  Morpheme.mk "th" "state" "…状态",
  Morpheme.mk "al" "relating to" "…的",
  Morpheme.mk "ic" "relating to" "…的",
  Morpheme.mk "ly" "like, having quality" "…的",
  Morpheme.mk "ed" "having" "有…的",
  Morpheme.mk "en" "made of" "由…制成",
  Morpheme.mk "fy" "make" "使…",
  Morpheme.mk "ly" "in manner of" "…地",
  Morpheme.mk "y" "having quality" "…的"
]

/-- The `suffixes` table sorted by descending pattern length with the stable sort
`[...suffixes].sort((a, b) => b.pattern.length - a.pattern.length)`; written out
literally (in chunks, concatenated in order) so that proofs can evaluate it,
and certified against `sortByLenDesc suffixes` below. -/
def sortedSuffixes : List Morpheme :=
  sortedSuffixesPart0 ++ sortedSuffixesPart1

/-- The literal `sortedPrefixes` is the stable descending-length sort of the
`prefixes` table. -/
theorem sortedPrefixes_eq : sortByLenDesc prefixes = sortedPrefixes := by decide

set_option maxRecDepth 10000 in
/-- The literal `sortedRoots` is the stable descending-length sort of the
`roots` table. -/
theorem sortedRoots_eq : sortByLenDesc roots = sortedRoots := by decide

/-- The literal `sortedSuffixes` is the stable descending-length sort of the
`suffixes` table. -/
theorem sortedSuffixes_eq : sortByLenDesc suffixes = sortedSuffixes := by decide

/-! ## word-root-analyzer.js : analyzeWordRoot -/

/-- The `ComponentType` tags of word-root-analyzer.js. -/
inductive ComponentType where
  | PREFIX
  | ROOT
  | SUFFIX
deriving DecidableEq

/-- One emitted component `{ part, type, meaning, chineseMeaning }`. -/
structure WordComponent where
  part : List Char
  type : ComponentType
  meaning : String
  chineseMeaning : String
deriving DecidableEq

/-- The object `analyzeWordRoot` returns. -/
structure EtymologyAnalysis where
  components : List WordComponent
  origin : Option (List Char)
  hasContent : Bool
deriving DecidableEq

/-- The component built from a morpheme table entry. -/
def mkComponent (t : ComponentType) (m : Morpheme) : WordComponent :=
  ⟨pat m, t, m.meaning, m.chinese⟩

/-- The acceptance test of the prefix loop (audio-player.js line 846):
`remainingWord.startsWith(prefix.pattern) &&
remainingWord.length > prefix.pattern.length + 2`. -/
def preCond (w : List Char) (m : Morpheme) : Bool :=
  (pat m).isPrefixOf w && decide ((pat m).length + 2 < w.length)

/-- One iteration of the prefix loop: the first table entry (longest first)
that passes `preCond`, together with the window with that pattern stripped
from the front. -/
def findPreStep (w : List Char) : Option (Morpheme × List Char) :=
  match sortedPrefixes.find? (preCond w) with
  | some m => some (m, w.drop (pat m).length)
  | none => none

/-- The prefix loop of `analyzeWordRoot` (lines 842-858), unrolled: it runs
while a match is found and fewer than 2 prefixes have been emitted, so at
most twice.  Returns the extracted morphemes in extraction order and the
remaining window. -/
def extractPres (w : List Char) : List Morpheme × List Char :=
  match findPreStep w with
  | none => ([], w)
  | some (m1, w1) =>
    match findPreStep w1 with
    | none => ([m1], w1)
    | some (m2, w2) => ([m1, m2], w2)

/-- The acceptance test of the suffix loop (audio-player.js line 867):
`tempWord.endsWith(suffix.pattern) &&
tempWord.length > suffix.pattern.length + 1`. -/
def sufCond (w : List Char) (m : Morpheme) : Bool :=
  (pat m).isSuffixOf w && decide ((pat m).length + 1 < w.length)

/-- One iteration of the suffix loop: the first table entry (longest first)
that passes `sufCond`, with the window with that pattern stripped from the
end (`tempWord.slice(0, -suffix.pattern.length)`). -/
def findSufStep (w : List Char) : Option (Morpheme × List Char) :=
  match sortedSuffixes.find? (sufCond w) with
  | some m => some (m, w.take (w.length - (pat m).length))
  | none => none

/-- The suffix loop of `analyzeWordRoot` (lines 860-880), unrolled to its
maximum of 2 iterations.  Each found suffix is `unshift`ed, so the returned
list is in word order (innermost suffix first). -/
def extractSufs (w : List Char) : List Morpheme × List Char :=
  match findSufStep w with
  | none => ([], w)
  | some (m1, w1) =>
    match findSufStep w1 with
    | none => ([m1], w1)
    | some (m2, w2) => ([m2, m1], w2)

/-- The root search of `analyzeWordRoot` (audio-player.js lines 882-910): the
first (longest-first) root whose pattern is a substring of the remaining
window, falling back to a substring search over the whole lowercased word. -/
def findRootMorpheme (lowercased remainingWord : List Char) : Option Morpheme :=
  match sortedRoots.find? (fun r => listContainsSeq (pat r) remainingWord) with
  | some r => some r
  | none => sortedRoots.find? (fun r => listContainsSeq (pat r) lowercased)

/-- Model of `analyzeWordRoot(word, origin)` (audio-player.js lines 836-920):
strip up to 2 prefixes from the front, up to 2 suffixes from the back of the
post-prefix remainder, look for a root as a substring of what remains (falling
back to the whole lowercased word), and assemble prefixes, then the root,
then the suffixes. -/
def analyzeWordRoot (word : List Char) (origin : Option (List Char) := none) :
    EtymologyAnalysis :=
  let lowercased := jsToLower word
  let afterPre := extractPres lowercased
  let afterSuf := extractSufs afterPre.2
  let components :=
    afterPre.1.map (mkComponent .PREFIX) ++
      (findRootMorpheme lowercased afterSuf.2).toList.map (mkComponent .ROOT) ++
      afterSuf.1.map (mkComponent .SUFFIX)
  { components := components
    origin := origin
    hasContent := decide (0 < components.length) || origin.isSome }

/-! ## dictionary-service.js : word family -/

/-- The `addForm` helper inside `generatePotentialForms` (dictionary-service.js
lines 333-337): push `form` if it is truthy, differs from the base word, is
longer than 2 characters and is not already present. -/
def addForm (w : List Char) (forms : List (List Char)) (form : List Char) :
    List (List Char) :=
  if form ≠ [] ∧ form ≠ w ∧ 2 < form.length ∧ form ∉ forms then forms ++ [form]
  else forms

/-- The test `w.match(/[^aeiou]y$/)`: `w` ends in `y` preceded by a character
that is not a lowercase vowel. -/
def endsWithConsonantY (w : List Char) : Bool :=
  match w.reverse with
  | 'y' :: c :: _ => !((str "aeiou").contains c)
  | _ => false

/-- Model of `generatePotentialForms` (dictionary-service.js lines 328-432):
the fixed battery of morphological candidates, deduplicated in order and
capped at 20. -/
def generatePotentialForms (word : List Char) : List (List Char) :=
  let w := jsToLower word
  let endsWithE := (str "e").isSuffixOf w
  let base := if endsWithE then w.dropLast else w
  let fs : List (List Char) := []
  let fs :=
    if endsWithE then
      let fs := addForm w fs (base ++ str "ing")
      let fs := addForm w fs (base ++ str "ed")
      let fs := addForm w fs (w ++ str "d")
      let fs := addForm w fs (base ++ str "ion")
      let fs := addForm w fs (base ++ str "ation")
      let fs := addForm w fs (base ++ str "ive")
      let fs := addForm w fs (base ++ str "or")
      addForm w fs (base ++ str "er")
    else
      let fs := addForm w fs (w ++ str "ing")
      let fs := addForm w fs (w ++ str "ed")
      let fs := addForm w fs (w ++ str "er")
      let fs := addForm w fs (w ++ str "ion")
      addForm w fs (w ++ str "ation")
  let fs :=
    if endsWithE then
      let fs := addForm w fs (base ++ str "ive")
      addForm w fs (base ++ str "ively")
    else fs
  let fs := addForm w fs (w ++ str "ive")
  let fs := addForm w fs (w ++ str "ively")
  let fs := addForm w fs (w ++ str "ly")
  let fs := addForm w fs (w ++ str "ness")
  let fs :=
    if endsWithE then
      let fs := addForm w fs (w ++ str "r")
      addForm w fs (w ++ str "st")
    else
      let fs := addForm w fs (w ++ str "er")
      addForm w fs (w ++ str "est")
  let fs :=
    if endsWithConsonantY w then
      let yBase := w.dropLast
      let fs := addForm w fs (yBase ++ str "ily")
      let fs := addForm w fs (yBase ++ str "iness")
      let fs := addForm w fs (yBase ++ str "ier")
      let fs := addForm w fs (yBase ++ str "iest")
      let fs := addForm w fs (yBase ++ str "ied")
      addForm w fs (yBase ++ str "ies")
    else fs
  let fs := addForm w fs (w ++ str "ment")
  let fs := addForm w fs (w ++ str "ness")
  let fs := addForm w fs (w ++ str "ity")
  let fs := if endsWithE then addForm w fs (base ++ str "ity") else fs
  let fs :=
    if (str "tion").isSuffixOf w || (str "sion").isSuffixOf w then
      let nounBase := w.take (w.length - 4)
      let fs := addForm w fs (nounBase ++ str "e")
      let fs := addForm w fs nounBase
      let fs := addForm w fs (nounBase ++ str "ive")
      addForm w fs (nounBase ++ str "ively")
    else fs
  let fs :=
    if (str "ive").isSuffixOf w then
      let adjBase := w.take (w.length - 3)
      let fs := addForm w fs (adjBase ++ str "e")
      let fs := addForm w fs (adjBase ++ str "ion")
      let fs := addForm w fs (w ++ str "ly")
      addForm w fs (w.dropLast ++ str "ity")
    else fs
  let fs :=
    if (str "ly").isSuffixOf w then
      let advBase := w.take (w.length - 2)
      let fs := addForm w fs advBase
      addForm w fs (advBase ++ str "e")
    else fs
  let fs :=
    if (str "ness").isSuffixOf w then
      let nessBase := w.take (w.length - 4)
      let fs := addForm w fs nessBase
      addForm w fs (nessBase ++ str "ly")
    else fs
  fs.take 20

/-- The `{ pos, label, icon }` object of `getWordFormInfo`. -/
structure FormInfo where
  pos : List Char
  label : List Char
  icon : List Char
deriving DecidableEq

/-- Model of `getWordFormInfo(word, baseWord)` (dictionary-service.js lines
440-539): the ending-pattern part-of-speech heuristics, checked in source
order.  The nested comparative test (lines 459-464) falls through to the
later checks when its inner condition fails, which is the single combined
condition here. -/
def getWordFormInfo (word baseWord : List Char) : Option FormInfo :=
  let w := jsToLower word
  let base := jsToLower baseWord
  if (str "ing").isSuffixOf w then
    some ⟨str "verb", str "Present Participle", str "-ing"⟩
  else if (str "ed").isSuffixOf w ∧
      ((base.take 3).isPrefixOf w ∨ (str "e").isSuffixOf base) then
    some ⟨str "verb", str "Past Tense", str "Past"⟩
  else if w = base ++ str "d" ∨ w = base.dropLast ++ str "ed" then
    some ⟨str "verb", str "Past Tense", str "Past"⟩
  else if (str "est").isSuffixOf w then
    some ⟨str "adjective", str "Superlative", str "-est"⟩
  else if ((str "er").isSuffixOf w ∧ w.length < base.length + 4 ∧
        ¬ (str "ier").isSuffixOf w) ∧
      (w = base ++ str "r" ∨ w = base ++ str "er" ∨
        w = base.dropLast ++ str "ier") then
    some ⟨str "adjective", str "Comparative", str "-er"⟩
  else if (str "ier").isSuffixOf w ∧ (str "y").isSuffixOf base then
    some ⟨str "adjective", str "Comparative", str "-er"⟩
  else if (str "iest").isSuffixOf w ∧ (str "y").isSuffixOf base then
    some ⟨str "adjective", str "Superlative", str "-est"⟩
  else if (str "ly").isSuffixOf w then some ⟨str "adverb", str "Adverb", str "Adv"⟩
  else if (str "ily").isSuffixOf w then some ⟨str "adverb", str "Adverb", str "Adv"⟩
  else if (str "ally").isSuffixOf w then some ⟨str "adverb", str "Adverb", str "Adv"⟩
  else if (str "ive").isSuffixOf w ∨ (str "ative").isSuffixOf w then
    some ⟨str "adjective", str "Adjective", str "Adj"⟩
  else if (str "ous").isSuffixOf w ∨ (str "ious").isSuffixOf w ∨
      (str "eous").isSuffixOf w then
    some ⟨str "adjective", str "Adjective", str "Adj"⟩
  else if (str "able").isSuffixOf w ∨ (str "ible").isSuffixOf w then
    some ⟨str "adjective", str "Adjective", str "Adj"⟩
  else if (str "ful").isSuffixOf w ∨ (str "less").isSuffixOf w then
    some ⟨str "adjective", str "Adjective", str "Adj"⟩
  else if (str "al").isSuffixOf w ∧ 4 < w.length then
    some ⟨str "adjective", str "Adjective", str "Adj"⟩
  else if (str "ic").isSuffixOf w ∨ (str "ical").isSuffixOf w then
    some ⟨str "adjective", str "Adjective", str "Adj"⟩
  else if (str "tion").isSuffixOf w ∨ (str "sion").isSuffixOf w then
    some ⟨str "noun", str "Noun", str "N"⟩
  else if (str "ment").isSuffixOf w then some ⟨str "noun", str "Noun", str "N"⟩
  else if (str "ness").isSuffixOf w then some ⟨str "noun", str "Noun", str "N"⟩
  else if (str "ity").isSuffixOf w then some ⟨str "noun", str "Noun", str "N"⟩
  else if (str "ance").isSuffixOf w ∨ (str "ence").isSuffixOf w then
    some ⟨str "noun", str "Noun", str "N"⟩
  else if (str "er").isSuffixOf w ∨ (str "or").isSuffixOf w then
    some ⟨str "noun", str "Noun (person)", str "N"⟩
  else if (str "ist").isSuffixOf w ∨ (str "ism").isSuffixOf w then
    some ⟨str "noun", str "Noun", str "N"⟩
  else if (str "ize").isSuffixOf w ∨ (str "ise").isSuffixOf w then
    some ⟨str "verb", str "Verb", str "V"⟩
  else if (str "ify").isSuffixOf w then some ⟨str "verb", str "Verb", str "V"⟩
  else if (str "ate").isSuffixOf w ∧ 5 < w.length then
    some ⟨str "verb", str "Verb", str "V"⟩
  else none

/-- The settled outcome of one verification fetch against the dictionary API:
a thrown error (network failure or JSON parse error — both are caught), a
non-ok HTTP response, or a decoded entry array. -/
inductive FetchOutcome where
  | thrown
  | notOk
  | ok (data : List ApiEntry)

/-- The object `verifyWordForm` resolves with:
`{ word, partOfSpeech, icon, order }`. -/
structure WordFamilyEntry where
  word : List Char
  partOfSpeech : List Char
  icon : List Char
  order : Nat
deriving DecidableEq

/-- The `orderMap` of `verifyWordForm` with its `|| 5` default. -/
def orderMap (pos : List Char) : Nat :=
  if pos = str "noun" then 1
  else if pos = str "verb" then 2
  else if pos = str "adjective" then 3
  else if pos = str "adverb" then 4
  else 5

/-- Model of `verifyWordForm(word, baseWord)` (dictionary-service.js lines
547-610) given the settled fetch outcome.  Every failure path returns `none`
(the source's `null`): thrown errors are swallowed by the `catch`, non-ok
responses, empty data and entries without meanings return `null`.  The two
source branches that use `formInfo` produce identical results, so they are
one branch here; otherwise the API's first part of speech is used with the
generic labels, or `null` when it has no generic label. -/
def verifyWordForm (word baseWord : List Char) (outcome : FetchOutcome) :
    Option WordFamilyEntry :=
  match outcome with
  | .thrown => none
  | .notOk => none
  | .ok data =>
    match data with
    | [] => none
    | entry :: _ =>
      if entry.meanings = [] then none
      else
        let formInfo := getWordFormInfo word baseWord
        let apiPOSList :=
          (entry.meanings.filterMap (fun m => m.partOfSpeech.map jsToLower)).filter
            (· ≠ [])
        match formInfo with
        | some fi => some ⟨entry.word, fi.label, fi.icon, orderMap fi.pos⟩
        | none =>
          match apiPOSList.head? with
          | none => none
          | some pos =>
            if pos = str "noun" then some ⟨entry.word, str "Noun", str "N", orderMap pos⟩
            else if pos = str "verb" then
              some ⟨entry.word, str "Verb", str "V", orderMap pos⟩
            else if pos = str "adjective" then
              some ⟨entry.word, str "Adjective", str "Adj", orderMap pos⟩
            else if pos = str "adverb" then
              some ⟨entry.word, str "Adverb", str "Adv", orderMap pos⟩
            else none

/-- The result object of `fetchWordFamily`. -/
structure WordFamilyResult where
  word : List Char
  forms : List WordFamilyEntry
  hasContent : Bool
deriving DecidableEq

/-- One step of the filtering loop of `fetchWordFamily` (dictionary-service.js
lines 638-648), acting on the state `(seenWords, seenPOS, forms)`: a non-null
result with an unseen lowercased word is kept when its part-of-speech label is
unseen or fewer than 4 forms have been collected. -/
def filterStep (st : List (List Char) × List (List Char) × List WordFamilyEntry)
    (result : Option WordFamilyEntry) :
    List (List Char) × List (List Char) × List WordFamilyEntry :=
  match result with
  | none => st
  | some r =>
    if jsToLower r.word ∉ st.1 ∧
        (r.partOfSpeech ∉ st.2.1 ∨ st.2.2.length < 4) then
      (jsToLower r.word :: st.1, r.partOfSpeech :: st.2.1, st.2.2 ++ [r])
    else st

/-- The filtering loop of `fetchWordFamily` over the settled verification
results, started with `seenWords = {trimmedWord}`. -/
def filterResults (trimmedWord : List Char)
    (results : List (Option WordFamilyEntry)) : List WordFamilyEntry :=
  (results.foldl filterStep ([trimmedWord], [], [])).2.2

/-- Stable insertion into a list already sorted by ascending `order`. -/
def insertForm (x : WordFamilyEntry) : List WordFamilyEntry →
    List WordFamilyEntry
  | [] => [x]
  | h :: t => if h.order ≤ x.order then h :: insertForm x t else x :: h :: t

/-- Stable sort by ascending `order` — the result of the source's
`forms.sort((a, b) => a.order - b.order)` under the engine's stable sort. -/
def sortForms (l : List WordFamilyEntry) : List WordFamilyEntry :=
  l.foldl (fun acc x => insertForm x acc) []

/-- Model of `fetchWordFamily(word)` (dictionary-service.js lines 617-665).
The network behaviour is injected as `outcome`, the settled fetch outcome for
each candidate; the verifier applied to a candidate is then
`verifyWordForm candidate trimmedWord (outcome candidate)`.  Phrases
short-circuit to an empty result; otherwise the generated candidates are
verified, filtered, stably sorted by part-of-speech order and truncated to 6.
The source's surrounding `try`/`catch` never fires in this model, because
every per-candidate failure is already a `none` verification result. -/
def fetchWordFamily (word : List Char) (outcome : List Char → FetchOutcome) :
    WordFamilyResult :=
  let trimmedWord := jsToLower (jsTrim word)
  if listContainsSeq (str " ") trimmedWord then
    { word := trimmedWord, forms := [], hasContent := false }
  else
    let potentialForms := generatePotentialForms trimmedWord
    let results := potentialForms.map
      (fun form => verifyWordForm form trimmedWord (outcome form))
    let forms := filterResults trimmedWord results
    let limitedForms := (sortForms forms).take 6
    { word := trimmedWord, forms := limitedForms,
      hasContent := decide (0 < limitedForms.length) }

/-! ## Supporting lemmas about the etymology analyzer -/

theorem mkComponent_type (t : ComponentType) (m : Morpheme) :
    (mkComponent t m).type = t := rfl

theorem findPreStep_append {w rest : List Char} {m : Morpheme}
    (h : findPreStep w = some (m, rest)) : pat m ++ rest = w := by
  unfold findPreStep at h
  cases hf : sortedPrefixes.find? (preCond w) with
  | none => rw [hf] at h; cases h
  | some m1 =>
    rw [hf] at h
    have hc : preCond w m1 = true := List.find?_some hf
    have hp : pat m1 <+: w :=
      Iff.mp List.isPrefixOf_iff_prefix ((Bool.and_eq_true _ _).mp hc).left
    obtain ⟨t, ht⟩ := hp
    injection h with h2
    obtain ⟨rfl, rfl⟩ := Prod.mk.injEq .. ▸ h2
    rw [← ht, List.drop_left]

theorem findSufStep_append {w rest : List Char} {m : Morpheme}
    (h : findSufStep w = some (m, rest)) : rest ++ pat m = w := by
  unfold findSufStep at h
  cases hf : sortedSuffixes.find? (sufCond w) with
  | none => rw [hf] at h; cases h
  | some m1 =>
    rw [hf] at h
    have hc : sufCond w m1 = true := List.find?_some hf
    have hs : pat m1 <:+ w :=
      List.isSuffixOf_iff_suffix.mp ((Bool.and_eq_true _ _).mp hc).left
    obtain ⟨t, ht⟩ := hs
    injection h with h2
    obtain ⟨rfl, rfl⟩ := Prod.mk.injEq .. ▸ h2
    have hl : w.length - (pat m1).length = t.length := by
      rw [← ht]; simp
    rw [hl, ← ht, List.take_left]

theorem extractPres_append (w : List Char) :
    ((extractPres w).1.map pat).flatten ++ (extractPres w).2 = w := by
  unfold extractPres
  split
  · simp
  · rename_i m1 w1 h1
    have e1 := findPreStep_append h1
    split
    · simpa using e1
    · rename_i m2 w2 h2
      have e2 := findPreStep_append h2
      simp only [List.map_cons, List.map_nil, List.flatten_cons,
        List.flatten_nil, List.append_nil, List.append_assoc]
      rw [e2, e1]

theorem extractSufs_append (w : List Char) :
    (extractSufs w).2 ++ ((extractSufs w).1.map pat).flatten = w := by
  unfold extractSufs
  split
  · simp
  · rename_i m1 w1 h1
    have e1 := findSufStep_append h1
    split
    · simpa using e1
    · rename_i m2 w2 h2
      have e2 := findSufStep_append h2
      simp only [List.map_cons, List.map_nil, List.flatten_cons,
        List.flatten_nil, List.append_nil, List.append_assoc]
      rw [← List.append_assoc, e2, e1]

theorem extractPres_length (w : List Char) : (extractPres w).1.length ≤ 2 := by
  unfold extractPres
  split
  · simp
  · rename_i m1 w1 h1
    split
    · simp
    · simp

theorem extractSufs_length (w : List Char) : (extractSufs w).1.length ≤ 2 := by
  unfold extractSufs
  split
  · simp
  · rename_i m1 w1 h1
    split
    · simp
    · simp

theorem analyzeWordRoot_components (word : List Char)
    (origin : Option (List Char)) :
    (analyzeWordRoot word origin).components =
      (extractPres (jsToLower word)).1.map (mkComponent .PREFIX) ++
        (findRootMorpheme (jsToLower word)
            (extractSufs (extractPres (jsToLower word)).2).2).toList.map
          (mkComponent .ROOT) ++
        (extractSufs (extractPres (jsToLower word)).2).1.map
          (mkComponent .SUFFIX) := rfl

theorem filter_type_mkComponent (t t' : ComponentType) (l : List Morpheme) :
    (l.map (mkComponent t)).filter (fun c => c.type == t') =
      if t = t' then l.map (mkComponent t) else [] := by
  induction l with
  | nil => simp
  | cons m ms ih =>
    by_cases h : t = t' <;>
      simp_all [List.filter_cons, mkComponent_type]

/-! ## Claims about the etymology analyzer -/

/-- C6: for every word and optional origin, the analysis returned by
`analyzeWordRoot` has `hasContent` true iff its component list is non-empty or
an origin is present; in particular, for the word "xyz" (which matches no
morpheme anywhere) with no origin it returns `hasContent = false` and an
empty component list. -/
theorem c6_hasContent_iff (word : List Char) (origin : Option (List Char)) :
    ((analyzeWordRoot word origin).hasContent = true ↔
      ((analyzeWordRoot word origin).components ≠ [] ∨
        (analyzeWordRoot word origin).origin.isSome = true)) ∧
    analyzeWordRoot (str "xyz") none =
      { components := [], origin := none, hasContent := false } := by
  refine ⟨?_, by decide⟩
  have h : (analyzeWordRoot word origin).hasContent =
      (decide (0 < (analyzeWordRoot word origin).components.length) ||
        (analyzeWordRoot word origin).origin.isSome) := rfl
  rw [h]
  generalize (analyzeWordRoot word origin).components = L
  generalize (analyzeWordRoot word origin).origin = o
  simp [List.length_pos]

/-- C7: for every input word (and origin), `analyzeWordRoot` emits at most 2
prefix components and at most 2 suffix components. -/
theorem c7_affix_caps (word : List Char) (origin : Option (List Char)) :
    ((analyzeWordRoot word origin).components.filter
        (fun c => c.type == ComponentType.PREFIX)).length ≤ 2 ∧
    ((analyzeWordRoot word origin).components.filter
        (fun c => c.type == ComponentType.SUFFIX)).length ≤ 2 := by
  rw [analyzeWordRoot_components]
  constructor <;>
    simp [List.filter_append, filter_type_mkComponent,
      extractPres_length, extractSufs_length]

/-- The suffix-loop condition `sufCond` spelled out: the pattern matches the
tail of the window and its removal leaves at least 2 characters. -/
theorem sufCond_iff (w : List Char) (s : Morpheme) :
    sufCond w s = true ↔ pat s <:+ w ∧ (pat s).length + 2 ≤ w.length := by
  simp only [sufCond, Bool.and_eq_true, List.isSuffixOf_iff_suffix,
    decide_eq_true_eq]
  constructor <;> rintro ⟨h1, h2⟩ <;> exact ⟨h1, by omega⟩

/-- A suffix is found by `findSufStep` iff some table entry passes `sufCond`. -/
theorem findSufStep_isSome (w : List Char) :
    (findSufStep w).isSome = true ↔
      ∃ s ∈ sortedSuffixes, sufCond w s = true := by
  unfold findSufStep
  split
  · rename_i m hf
    simp only [Option.isSome_some, true_iff]
    exact ⟨m, List.mem_of_find?_eq_some hf, List.find?_some hf⟩
  · rename_i hf
    rw [List.find?_eq_none] at hf
    constructor
    · intro h; exact Bool.noConfusion h
    · rintro ⟨s, hs, hc⟩
      exact absurd hc (hf s hs)

/-- The suffix loop emits a suffix iff its first step finds one. -/
theorem extractSufs_ne_nil (w : List Char) :
    (extractSufs w).1 ≠ [] ↔ (findSufStep w).isSome = true := by
  unfold extractSufs
  split
  · rename_i h1; simp [h1]
  · rename_i m1 w1 h1
    split <;> simp [h1]

/-- C4 (amended): the suffix step of `analyzeWordRoot` operates on the
post-prefix-stripped remainder and extracts at most 2 suffixes; it extracts a
suffix exactly when some table pattern matches the tail of that remainder
leaving at least 2 (not 1, as the claim says) remaining characters after
removal. -/
theorem c4_suffix_extraction (word : List Char) (origin : Option (List Char)) :
    ((analyzeWordRoot word origin).components.filter
        (fun c => c.type == ComponentType.SUFFIX)).length ≤ 2 ∧
    (((analyzeWordRoot word origin).components.filter
        (fun c => c.type == ComponentType.SUFFIX)) ≠ [] ↔
      ∃ s ∈ sortedSuffixes,
        pat s <:+ (extractPres (jsToLower word)).2 ∧
        (pat s).length + 2 ≤ ((extractPres (jsToLower word)).2).length) := by
  rw [analyzeWordRoot_components]
  constructor
  · simp [List.filter_append, filter_type_mkComponent, extractSufs_length]
  · have hne : ∀ l : List Morpheme,
        l.map (mkComponent ComponentType.SUFFIX) ≠ [] ↔ l ≠ [] := by
      intro l; cases l <;> simp
    simp only [List.filter_append, filter_type_mkComponent]
    rw [if_neg (fun h => ComponentType.noConfusion h),
      if_neg (fun h => ComponentType.noConfusion h)]
    simp only [reduceIte, List.nil_append]
    rw [hne, extractSufs_ne_nil, findSufStep_isSome]
    simp only [sufCond_iff]

/-- C4, counterexample to the claim as stated: for the word "wing" the table
suffix "ing" matches the tail of the post-prefix remainder ("wing" itself) and
its removal leaves 1 character, yet no suffix is extracted (the code requires
`tempWord.length > pattern.length + 1`, i.e. at least 2 remaining). -/
theorem c4_counterexample_wing :
    ((analyzeWordRoot (str "wing") none).components.filter
        (fun c => c.type == ComponentType.SUFFIX)) = [] ∧
    (∃ s ∈ sortedSuffixes,
      pat s <:+ (extractPres (jsToLower (str "wing"))).2 ∧
      (pat s).length + 1 ≤ ((extractPres (jsToLower (str "wing"))).2).length) := by
  refine ⟨by decide, ⟨Morpheme.mk "ing" "action, process" "…中", ?_, ?_, ?_⟩⟩
  · decide
  · decide
  · decide

/-- C5: for every word (and origin), the components of `analyzeWordRoot` come
in left-to-right word order: first the prefix components (in extraction
order — their patterns concatenate to a literal prefix of the lowercased
word), then the root component (if found), then the suffix components in word
order with the innermost suffix first (their patterns concatenate to a
literal suffix of the lowercased word).  In particular the purely composed
word "unbelievable" (un+believ+able) decomposes in order into the prefix
"un", the root "ev" (found inside "believ") and the suffix "able". -/
theorem c5_left_to_right_order (word : List Char) (origin : Option (List Char)) :
    (∃ P R S, (analyzeWordRoot word origin).components = P ++ R ++ S ∧
      (∀ c ∈ P, c.type = ComponentType.PREFIX) ∧
      (∀ c ∈ R, c.type = ComponentType.ROOT) ∧
      (∀ c ∈ S, c.type = ComponentType.SUFFIX) ∧
      (P.map (fun c => c.part)).flatten <+: jsToLower word ∧
      (S.map (fun c => c.part)).flatten <:+ jsToLower word) ∧
    (analyzeWordRoot (str "unbelievable") none).components.map
        (fun c => (c.part, c.type)) =
      [(str "un", ComponentType.PREFIX), (str "ev", ComponentType.ROOT),
       (str "able", ComponentType.SUFFIX)] ∧
    str "un" ++ str "beli" ++ str "ev" ++ str "able" = str "unbelievable" := by
  refine ⟨?_, by decide, by decide⟩
  refine ⟨(extractPres (jsToLower word)).1.map (mkComponent .PREFIX),
    (findRootMorpheme (jsToLower word)
        (extractSufs (extractPres (jsToLower word)).2).2).toList.map
      (mkComponent .ROOT),
    (extractSufs (extractPres (jsToLower word)).2).1.map (mkComponent .SUFFIX),
    analyzeWordRoot_components word origin, ?_, ?_, ?_, ?_, ?_⟩
  · rintro c hc
    obtain ⟨m, _, rfl⟩ := List.mem_map.mp hc
    rfl
  · rintro c hc
    obtain ⟨m, _, rfl⟩ := List.mem_map.mp hc
    rfl
  · rintro c hc
    obtain ⟨m, _, rfl⟩ := List.mem_map.mp hc
    rfl
  · have h := extractPres_append (jsToLower word)
    rw [List.map_map]
    exact ⟨(extractPres (jsToLower word)).2, h⟩
  · have hs := extractSufs_append (extractPres (jsToLower word)).2
    have hp := extractPres_append (jsToLower word)
    rw [List.map_map]
    refine List.IsSuffix.trans ⟨(extractSufs (extractPres (jsToLower word)).2).2, hs⟩ ?_
    exact ⟨((extractPres (jsToLower word)).1.map pat).flatten, hp⟩

/-! ## Claims about lookupWord -/

/-- C1 (amended): `lookupWord` treats every error of the primary-definitions
fetch — not only `WORD_NOT_FOUND` — as a soft condition, continuing with
empty English definitions (`WORD_NOT_FOUND` additionally drives the phrase
flag), and propagates every error (NotFound, Network, Decoding alike) of the
translation fetch to the caller. -/
theorem c1_error_propagation (word : List Char)
    (defResult : Except DictionaryError (List ApiEntry))
    (transResult : Except DictionaryError Translation) :
    (∀ e, transResult = .error e →
      lookupWord word defResult transResult = .error e) ∧
    (∀ t e, transResult = .ok t → defResult = .error e →
      ∃ r, lookupWord word defResult transResult = .ok r ∧
        r.englishDefinitions = []) := by
  constructor
  · rintro e rfl
    cases defResult <;> rfl
  · rintro t e rfl rfl
    exact ⟨_, rfl, rfl⟩

/-- C1, counterexample to the claim as stated: a `NETWORK_ERROR` from the
primary-definitions fetch does not propagate — the lookup still resolves
(with empty English definitions) when the translation fetch succeeds. -/
theorem c1_counterexample_network_swallowed :
    lookupWord (str "hello")
      (.error ⟨.NETWORK_ERROR, str "HTTP Error: 500"⟩)
      (.ok ⟨str "你好", []⟩) =
    .ok { word := str "hello", englishDefinitions := [],
          chineseTranslation := ⟨str "你好", []⟩, isPhrase := false } := rfl

/-- C10: whenever the trimmed query contains a space character and
`lookupWord` resolves, the result has `isPhrase = true` — also when the
English-definitions fetch succeeded with entries. -/
theorem c10_space_means_phrase (word : List Char)
    (defResult : Except DictionaryError (List ApiEntry))
    (transResult : Except DictionaryError Translation) (r : LookupResult)
    (hr : lookupWord word defResult transResult = .ok r)
    (hs : listContainsSeq (str " ") (jsTrim word) = true) :
    r.isPhrase = true := by
  cases transResult with
  | error e => cases hr
  | ok t =>
    cases defResult <;>
      · injection hr with h
        rw [← h]
        simp [hs]

/-- C10, witness: the phrase "ice cream", with a successful definitions fetch
returning one entry, yields `isPhrase = true`. -/
theorem c10_space_means_phrase_witness :
    ({ word := str "ice cream",
       englishDefinitions := [⟨str "ice cream", []⟩],
       chineseTranslation := ⟨str "冰淇淋", []⟩,
       isPhrase := true } : LookupResult).isPhrase = true :=
  c10_space_means_phrase (str "ice cream") (.ok [⟨str "ice cream", []⟩])
    (.ok ⟨str "冰淇淋", []⟩) _ rfl (by decide)

/-! ## Claims about the translation alternatives -/

theorem extractAltsAux_spec (ms : List TransMatch) :
    ∀ (seen alts : List (List Char)),
      alts.length < 5 →
      (alts.map jsToLower).Nodup →
      (∀ a ∈ alts, jsToLower a ∈ seen) →
      (extractAltsAux ms seen alts).length ≤ 5 ∧
      ((extractAltsAux ms seen alts).map jsToLower).Nodup ∧
      (∀ a ∈ extractAltsAux ms seen alts, a ∈ alts ∨
        (jsToLower a ∉ seen ∧ a.length < 50 ∧
          ∃ m ∈ ms, m.quality > 50 ∧ a = jsTrim m.translation)) := by
  induction ms with
  | nil =>
    intro seen alts h5 hnd hsub
    exact ⟨Nat.le_of_lt h5, hnd, fun a ha => Or.inl ha⟩
  | cons m rest ih =>
    intro seen alts h5 hnd hsub
    by_cases h1 : m.translation ≠ [] ∧ m.quality ≠ 0 ∧ m.quality > 50
    · by_cases h2 : jsToLower (jsTrim m.translation) ∉ seen ∧
          (jsTrim m.translation).length < 50
      · have hnd2 : ((alts ++ [jsTrim m.translation]).map jsToLower).Nodup := by
          rw [List.map_append]
          rw [List.nodup_append]
          refine ⟨hnd, List.nodup_singleton _, ?_⟩
          intro x hx hx2
          simp only [List.map_cons, List.map_nil, List.mem_singleton] at hx2
          subst hx2
          obtain ⟨a, ha, hea⟩ := List.mem_map.mp hx
          exact h2.1 (hea ▸ hsub a ha)
        by_cases h3 : (alts ++ [jsTrim m.translation]).length ≥ 5
        · rw [extractAltsAux, if_pos h1, if_pos h2, if_pos h3]
          refine ⟨?_, hnd2, ?_⟩
          · simp only [List.length_append, List.length_singleton]
            omega
          · intro a ha
            rcases List.mem_append.mp ha with ha | ha
            · exact Or.inl ha
            · rw [List.mem_singleton] at ha
              subst ha
              exact Or.inr ⟨h2.1, h2.2,
                m, List.mem_cons_self _ _, h1.2.2, rfl⟩
        · rw [extractAltsAux, if_pos h1, if_pos h2, if_neg h3]
          have hlen : (alts ++ [jsTrim m.translation]).length < 5 := by omega
          have hsub2 : ∀ a ∈ alts ++ [jsTrim m.translation],
              jsToLower a ∈ jsToLower (jsTrim m.translation) :: seen := by
            intro a ha
            rcases List.mem_append.mp ha with ha | ha
            · exact List.mem_cons_of_mem _ (hsub a ha)
            · rw [List.mem_singleton] at ha
              subst ha
              exact List.mem_cons_self _ _
          obtain ⟨ih1, ih2, ih3⟩ := ih (jsToLower (jsTrim m.translation) :: seen)
            (alts ++ [jsTrim m.translation]) hlen hnd2 hsub2
          refine ⟨ih1, ih2, ?_⟩
          intro a ha
          rcases ih3 a ha with ha2 | ⟨hns, hl, m2, hm2, hq2, he2⟩
          · rcases List.mem_append.mp ha2 with ha3 | ha3
            · exact Or.inl ha3
            · rw [List.mem_singleton] at ha3
              subst ha3
              exact Or.inr ⟨h2.1, h2.2,
                m, List.mem_cons_self _ _, h1.2.2, rfl⟩
          · refine Or.inr ⟨fun hc => hns (List.mem_cons_of_mem _ hc), hl,
              m2, List.mem_cons_of_mem _ hm2, hq2, he2⟩
      · rw [extractAltsAux, if_pos h1, if_neg h2]
        obtain ⟨ih1, ih2, ih3⟩ := ih seen alts h5 hnd hsub
        refine ⟨ih1, ih2, ?_⟩
        intro a ha
        rcases ih3 a ha with ha2 | ⟨hns, hl, m2, hm2, hq2, he2⟩
        · exact Or.inl ha2
        · exact Or.inr ⟨hns, hl, m2, List.mem_cons_of_mem _ hm2, hq2, he2⟩
    · rw [extractAltsAux, if_neg h1]
      obtain ⟨ih1, ih2, ih3⟩ := ih seen alts h5 hnd hsub
      refine ⟨ih1, ih2, ?_⟩
      intro a ha
      rcases ih3 a ha with ha2 | ⟨hns, hl, m2, hm2, hq2, he2⟩
      · exact Or.inl ha2
      · exact Or.inr ⟨hns, hl, m2, List.mem_cons_of_mem _ hm2, hq2, he2⟩

/-- The concrete matches of the spec's translation-filtering scenario. -/
def c3matches : List TransMatch :=
  [⟨str "Hi", 90⟩, ⟨str "Hi", 60⟩, ⟨List.replicate 60 'x', 95⟩, ⟨str "Hey", 51⟩]

/-- The concrete response of the spec's translation-filtering scenario. -/
def c3resp : MyMemoryResponse := ⟨some ⟨str "Hello"⟩, some c3matches⟩

/-- C3: whenever `fetchChineseTranslation` succeeds, it returns at most 5
alternatives, case-insensitively pairwise distinct, each shorter than 50
characters, each case-insensitively different from the primary, and each the
trimmed translation of some provider match with quality strictly above 50;
and on the spec's concrete scenario (primary "Hello", matches Hi/90, Hi/60,
"x"×60/95, Hey/51) the alternatives are exactly ["Hi", "Hey"]: "Hey" occurs
exactly once, "Hi" at most once, and the over-length string is excluded. -/
theorem c3_alternatives_filtered (resp : MyMemoryResponse) (t : Translation)
    (h : fetchChineseTranslation resp = .ok t) :
    (t.alternatives.length ≤ 5 ∧
      (t.alternatives.map jsToLower).Nodup ∧
      (∀ a ∈ t.alternatives, a.length < 50 ∧
        jsToLower a ≠ jsToLower t.primary ∧
        ∃ ms, resp.matchList = some ms ∧
          ∃ m ∈ ms, m.quality > 50 ∧ a = jsTrim m.translation)) ∧
    fetchChineseTranslation c3resp =
      .ok ⟨str "Hello", [str "Hi", str "Hey"]⟩ ∧
    (extractAltsAux c3matches [jsToLower (str "Hello")] []).count (str "Hey") = 1 ∧
    (extractAltsAux c3matches [jsToLower (str "Hello")] []).count (str "Hi") ≤ 1 ∧
    List.replicate 60 'x' ∉ extractAltsAux c3matches [jsToLower (str "Hello")] [] := by
  refine ⟨?_, rfl, by decide, by decide, by decide⟩
  unfold fetchChineseTranslation at h
  split at h
  · rename_i rd hrd
    by_cases hne : rd.translatedText ≠ []
    · rw [if_pos hne] at h
      injection h with h2
      subst h2
      dsimp only
      cases hms : resp.matchList with
      | none => simp
      | some ms =>
        dsimp only
        obtain ⟨h1, h2, h3⟩ := extractAltsAux_spec ms
          [jsToLower rd.translatedText] [] (by decide) (by simp) (by simp)
        refine ⟨h1, h2, ?_⟩
        intro a ha
        rcases h3 a ha with ha2 | ⟨hns, hl, m2, hm2, hq2, he2⟩
        · cases ha2
        · refine ⟨hl, ?_, ms, rfl, m2, hm2, hq2, he2⟩
          intro hc
          exact hns (by rw [hc]; exact List.mem_singleton_self _)
    · rw [if_neg hne] at h; cases h
  · cases h

/-- C3, witness: the concrete scenario instantiates the theorem. -/
theorem c3_alternatives_filtered_witness :
    (⟨str "Hello", [str "Hi", str "Hey"]⟩ : Translation).alternatives.length ≤ 5 :=
  (c3_alternatives_filtered c3resp ⟨str "Hello", [str "Hi", str "Hey"]⟩ rfl).1.1

/-! ## Supporting lemmas about the word-family filter -/

theorem foldl_filterStep_none (results : List (Option WordFamilyEntry)) :
    ∀ st, (∀ x ∈ results, x = none) → results.foldl filterStep st = st := by
  induction results with
  | nil => intro st _; rfl
  | cons r rest ih =>
    intro st hall
    have hr : r = none := hall r (List.mem_cons_self _ _)
    subst hr
    rw [List.foldl_cons]
    exact ih st (fun x hx => hall x (List.mem_cons_of_mem _ hx))

theorem filterResults_all_none (trimmed : List Char)
    (results : List (Option WordFamilyEntry))
    (h : ∀ x ∈ results, x = none) : filterResults trimmed results = [] := by
  unfold filterResults
  rw [foldl_filterStep_none results _ h]

theorem mem_insertForm (x y : WordFamilyEntry) :
    ∀ l, y ∈ insertForm x l ↔ y = x ∨ y ∈ l := by
  intro l
  induction l with
  | nil => simp [insertForm]
  | cons h t ih =>
    simp only [insertForm]
    split
    · simp only [List.mem_cons, ih]
      tauto
    · simp only [List.mem_cons]

theorem mem_sortForms_aux (l : List WordFamilyEntry) :
    ∀ acc y, (y ∈ l.foldl (fun acc x => insertForm x acc) acc ↔
      y ∈ acc ∨ y ∈ l) := by
  induction l with
  | nil => intro acc y; simp
  | cons h t ih =>
    intro acc y
    rw [List.foldl_cons, ih, mem_insertForm]
    simp only [List.mem_cons]
    tauto

theorem mem_sortForms (y : WordFamilyEntry) (l : List WordFamilyEntry) :
    y ∈ sortForms l ↔ y ∈ l := by
  unfold sortForms
  rw [mem_sortForms_aux]
  simp

theorem filterResults_ne_trimmed (trimmed : List Char)
    (results : List (Option WordFamilyEntry)) :
    ∀ f ∈ filterResults trimmed results, jsToLower f.word ≠ trimmed := by
  suffices h : ∀ st : List (List Char) × List (List Char) × List WordFamilyEntry,
      trimmed ∈ st.1 → (∀ f ∈ st.2.2, jsToLower f.word ≠ trimmed) →
      ∀ f ∈ (results.foldl filterStep st).2.2, jsToLower f.word ≠ trimmed by
    intro f hf
    exact h ([trimmed], [], []) (List.mem_singleton_self _)
      (by intro f hf; cases hf) f hf
  induction results with
  | nil => intro st h1 h2; exact h2
  | cons r rest ih =>
    intro st h1 h2
    rw [List.foldl_cons]
    cases r with
    | none => exact ih st h1 h2
    | some v =>
      by_cases hc : jsToLower v.word ∉ st.1 ∧
          (v.partOfSpeech ∉ st.2.1 ∨ st.2.2.length < 4)
      · have hstep : filterStep st (some v) =
            (jsToLower v.word :: st.1, v.partOfSpeech :: st.2.1,
              st.2.2 ++ [v]) := by
          dsimp only [filterStep]
          rw [if_pos hc]
        rw [hstep]
        refine ih _ (List.mem_cons_of_mem _ h1) ?_
        intro f hf
        rcases List.mem_append.mp hf with hf | hf
        · exact h2 f hf
        · rw [List.mem_singleton] at hf
          subst hf
          intro he
          exact hc.1 (he ▸ h1)
      · have hstep : filterStep st (some v) = st := by
          dsimp only [filterStep]
          rw [if_neg hc]
        rw [hstep]
        exact ih st h1 h2

/-! ## Claims about fetchWordFamily -/

/-- C9: if the verifier rejects every candidate (every verification settles to
`null`), `fetchWordFamily` returns its word with an empty form list and
`hasContent = false` — and, being a total function of the settled outcomes,
it does not throw. -/
theorem c9_all_rejected_empty (word : List Char)
    (outcome : List Char → FetchOutcome)
    (h : ∀ c, verifyWordForm c (jsToLower (jsTrim word)) (outcome c) = none) :
    fetchWordFamily word outcome =
      { word := jsToLower (jsTrim word), forms := [], hasContent := false } := by
  unfold fetchWordFamily
  dsimp only
  split
  · rfl
  · rw [filterResults_all_none _ _ ?_]
    · rfl
    · intro x hx
      obtain ⟨c, _, rfl⟩ := List.mem_map.mp hx
      exact h c

/-- C9, witness: a provider that is entirely unreachable (every fetch throws)
yields the empty result for "learn". -/
theorem c9_all_rejected_empty_witness :
    fetchWordFamily (str "learn") (fun _ => FetchOutcome.thrown) =
      { word := jsToLower (jsTrim (str "learn")), forms := [],
        hasContent := false } :=
  c9_all_rejected_empty (str "learn") (fun _ => .thrown) (fun _ => rfl)

/-- C8 (amended): for every input word and every behaviour of the verifier,
no form of the `fetchWordFamily` result equals the trimmed lowercased query
word under case-insensitive comparison.  (The untrimmed original query can be
echoed — see the counterexample — so the guard is the trimmed query.) -/
theorem c8_no_trimmed_query_echo (word : List Char)
    (outcome : List Char → FetchOutcome) (f : WordFamilyEntry)
    (hf : f ∈ (fetchWordFamily word outcome).forms) :
    jsToLower f.word ≠ jsToLower (jsTrim word) := by
  unfold fetchWordFamily at hf
  dsimp only at hf
  split at hf
  · cases hf
  · have hf2 := List.take_subset _ _ hf
    rw [mem_sortForms] at hf2
    exact filterResults_ne_trimmed _ _ f hf2

/-- A verifier behaviour for the C8 witness: the candidate "learning" is
confirmed by the provider, everything else fails. -/
def c8wOutcome (c : List Char) : FetchOutcome :=
  if c = str "learning" then .ok [⟨str "learning", [⟨some (str "verb")⟩]⟩]
  else .thrown

/-- C8, witness: the verified form "learning" differs case-insensitively from
the trimmed query "learn". -/
theorem c8_no_trimmed_query_echo_witness :
    jsToLower (str "learning") ≠ jsToLower (jsTrim (str "learn")) :=
  c8_no_trimmed_query_echo (str "learn") c8wOutcome
    ⟨str "learning", str "Present Participle", str "-ing", 2⟩ (by decide)

/-- A verifier behaviour for the C8 counterexample: the dictionary entry for
the candidate "learning" reports the surface word "learn " (with a trailing
space). -/
def c8outcome (c : List Char) : FetchOutcome :=
  if c = str "learning" then .ok [⟨str "learn ", [⟨some (str "noun")⟩]⟩]
  else .thrown

/-- C8, counterexample to the claim as stated: for the untrimmed query
"learn " and a verifier echoing the entry word "learn ", the result set
contains a form equal (case-insensitively — here even literally) to the
original query word.  The in-loop guard only excludes the trimmed lowercased
query. -/
theorem c8_counterexample_untrimmed_query :
    ∃ f ∈ (fetchWordFamily (str "learn ") c8outcome).forms,
      jsToLower f.word = jsToLower (str "learn ") :=
  ⟨⟨str "learn ", str "Present Participle", str "-ing", 2⟩, by decide, by decide⟩

/-- The part-of-speech/threshold invariant of the filtering loop: every kept
form's label is recorded in `seenPOS`, and any form kept at an index ≥ 4 has
a label different from every earlier kept form's label. -/
def FilterInv (st : List (List Char) × List (List Char) × List WordFamilyEntry) :
    Prop :=
  (∀ f ∈ st.2.2, f.partOfSpeech ∈ st.2.1) ∧
  (∀ (i j : Nat) (hi : i < st.2.2.length) (hj : j < st.2.2.length),
    i < j → 4 ≤ j →
    (st.2.2.get ⟨j, hj⟩).partOfSpeech ≠ (st.2.2.get ⟨i, hi⟩).partOfSpeech)

theorem filterStep_inv (st : List (List Char) × List (List Char) ×
      List WordFamilyEntry) (r : Option WordFamilyEntry)
    (h : FilterInv st) : FilterInv (filterStep st r) := by
  obtain ⟨h1, h2⟩ := h
  cases r with
  | none => exact ⟨h1, h2⟩
  | some v =>
    by_cases hc : jsToLower v.word ∉ st.1 ∧
        (v.partOfSpeech ∉ st.2.1 ∨ st.2.2.length < 4)
    · have hstep : filterStep st (some v) =
          (jsToLower v.word :: st.1, v.partOfSpeech :: st.2.1,
            st.2.2 ++ [v]) := by
        dsimp only [filterStep]
        rw [if_pos hc]
      rw [hstep]
      constructor
      · intro f hf
        rcases List.mem_append.mp hf with hf | hf
        · exact List.mem_cons_of_mem _ (h1 f hf)
        · rw [List.mem_singleton] at hf
          subst hf
          exact List.mem_cons_self _ _
      · intro i j hi hj hij h4
        have hjlen : j < st.2.2.length + 1 := by
          simpa using hj
        rcases Nat.lt_or_ge j st.2.2.length with hjl | hjr
        · have hil : i < st.2.2.length := Nat.lt_trans hij hjl
          rw [List.get_eq_getElem, List.get_eq_getElem,
            List.getElem_append_left hjl, List.getElem_append_left hil]
          exact h2 i j hil hjl hij h4
        · have hje : j = st.2.2.length := by
            simp only [List.length_append, List.length_singleton] at hj
            omega
          subst hje
          have hil : i < st.2.2.length := hij
          have e1 : (st.2.2 ++ [v]).get ⟨st.2.2.length, hj⟩ = v := by
            simp
          have e2 : (st.2.2 ++ [v]).get ⟨i, hi⟩ = st.2.2.get ⟨i, hil⟩ := by
            rw [List.get_eq_getElem, List.get_eq_getElem,
              List.getElem_append_left hil]
          rw [e1, e2]
          have hnp : v.partOfSpeech ∉ st.2.1 := by
            rcases hc.2 with hnp | hlt
            · exact hnp
            · omega
          intro he
          exact hnp (he ▸ h1 _ (List.get_mem _ _ _))
    · have hstep : filterStep st (some v) = st := by
        dsimp only [filterStep]
        rw [if_neg hc]
      rw [hstep]
      exact ⟨h1, h2⟩

theorem foldl_filterStep_inv (results : List (Option WordFamilyEntry)) :
    ∀ st, FilterInv st → FilterInv (results.foldl filterStep st) := by
  induction results with
  | nil => intro st h; exact h
  | cons r rest ih =>
    intro st h
    rw [List.foldl_cons]
    exact ih _ (filterStep_inv st r h)

/-- C2 (amended): in `fetchWordFamily`'s filtering step, while fewer than 4
forms have been kept, every verified non-duplicate candidate is kept
regardless of its part-of-speech label; once 4 forms have been kept, only
candidates with an unseen label are added.  Hence any form kept at position
j ≥ 4 has a label different from every earlier kept form — duplicate labels
can only occur among the first 4 kept forms, before the fill threshold is
met, not after it. -/
theorem c2_same_pos_only_below_threshold (trimmedWord : List Char)
    (results : List (Option WordFamilyEntry)) (i j : Nat)
    (hi : i < (filterResults trimmedWord results).length)
    (hj : j < (filterResults trimmedWord results).length)
    (hij : i < j) (h4 : 4 ≤ j) :
    ((filterResults trimmedWord results).get ⟨j, hj⟩).partOfSpeech ≠
      ((filterResults trimmedWord results).get ⟨i, hi⟩).partOfSpeech := by
  have hinit : FilterInv ([trimmedWord], [], []) := by
    refine ⟨?_, ?_⟩
    · intro f hf; cases hf
    · intro i j hi hj _ _; cases hi
  have hinv := foldl_filterStep_inv results ([trimmedWord], [], []) hinit
  exact hinv.2 i j hi hj hij h4

/-- A verifier behaviour for the C2 counterexample: three noun-pattern
candidates of "learn" are confirmed, everything else fails. -/
def c2outcome (c : List Char) : FetchOutcome :=
  if c = str "learnation" ∨ c = str "learnness" ∨ c = str "learnment" then
    .ok [⟨c, [⟨some (str "noun")⟩]⟩]
  else .thrown

/-- C2, counterexample to the claim as stated: for "learn" with the verifier
`c2outcome`, the filtering step keeps three forms that all carry the same
part-of-speech label "Noun", although only 3 forms are ever collected — the
fill threshold (4) is never met, so under the claimed policy at most one
"Noun" representative should have been kept.  The code in fact allows
duplicate labels while below the threshold and blocks them after it. -/
theorem c2_counterexample_dupes_below_threshold :
    (fetchWordFamily (str "learn") c2outcome).forms.map
        (fun f => (f.word, f.partOfSpeech)) =
      [(str "learnation", str "Noun"), (str "learnness", str "Noun"),
       (str "learnment", str "Noun")] := by decide

/-- Verification results for the C2 witness: four nouns fill the threshold,
then a verb is admitted as the fifth form. -/
def c2wResults : List (Option WordFamilyEntry) :=
  [some ⟨str "a", str "Noun", str "N", 1⟩, some ⟨str "b", str "Noun", str "N", 1⟩,
   some ⟨str "c", str "Noun", str "N", 1⟩, some ⟨str "d", str "Noun", str "N", 1⟩,
   some ⟨str "e", str "Verb", str "V", 2⟩]

/-- C2, witness: in a run that reaches the fill threshold, the form kept at
index 4 has a label different from the form at index 0. -/
theorem c2_same_pos_witness :
    ((filterResults (str "learn") c2wResults).get ⟨4, by decide⟩).partOfSpeech ≠
      ((filterResults (str "learn") c2wResults).get ⟨0, by decide⟩).partOfSpeech :=
  c2_same_pos_only_below_threshold (str "learn") c2wResults 0 4
    (by decide) (by decide) (by decide) (by decide)
